import Mathlib

set_option linter.unusedVariables false

/-! Shallow embedding of the poll resolution and selection engine of the
fumiko-bot repository: src/poll_handler.rs, src/selection_poll_handler.rs,
src/deadline_handler.rs and src/commands/server_admin/select.rs.

Database tables are modelled as lists of rows, timestamps as natural
numbers, volume ids as strings.  Outward platform actions (messages, pins,
answer-cache purges, stored-procedure invocations) are recorded in an
effect trace.  Message sending is modelled as succeeding: the source treats
every send as best-effort and ignores its result, so a failed send changes
no state that the claims mention.  The process-local answer cache is a pure
optimisation (it caches exactly the map rebuilt on every miss from the
immutable poll answers), so vote resolution is modelled directly from the
fetched poll. -/

structure RatingPollRow where
  message_id : Nat
  channel_id : Nat
  server_id : Nat
  completed_id : Nat
  expires_at : Nat
  processed : Bool
deriving DecidableEq

structure SelectionPollRow where
  message_id : Nat
  channel_id : Nat
  server_id : Nat
  book_options : List String
  deadline : Option Nat
  expires_at : Nat
  processed : Bool
  selected_volume_id : Option String
deriving DecidableEq

structure UserBookRatingRow where
  user_id : Nat
  completed_id : Nat
  rating : Nat
deriving DecidableEq

structure CompletedBookRow where
  completed_id : Nat
  server_id : Nat
  volume_id : String
  average_rating : Option Nat
  total_ratings : Option Nat
deriving DecidableEq

structure QueueRow where
  server_id : Nat
  volume_id : String
  position : Nat
  suggested_by_user_id : Nat
deriving DecidableEq

structure CurrentBookRow where
  server_id : Nat
  volume_id : String
  deadline : Option Nat
  announcement_channel_id : Option Nat
deriving DecidableEq

structure BotConfigRow where
  server_id : Nat
  announcement_channel_id : Option Nat
  pin_polls : Bool
  auto_complete_on_deadline : Bool
deriving DecidableEq

structure MaturityRow where
  server_id : Nat
  mature_content_enabled : Bool
deriving DecidableEq

structure Db where
  rating_polls : List RatingPollRow
  selection_polls : List SelectionPollRow
  user_book_ratings : List UserBookRatingRow
  server_completed_books : List CompletedBookRow
  server_book_queue : List QueueRow
  server_current_book : List CurrentBookRow
  server_bot_config : List BotConfigRow
  server_maturity_settings : List MaturityRow
  next_completed_id : Nat
deriving DecidableEq

/-- Book metadata as returned by the Google Books collaborator. -/
structure Volume where
  volume_id : String
  title : String
  authors : String
  mature : Bool
deriving DecidableEq

structure PollAnswerCount where
  answer_id : Nat
  count : Nat
deriving DecidableEq

structure PollResults where
  is_finalized : Bool
  answer_counts : List PollAnswerCount
deriving DecidableEq

/-- A Discord poll as seen on a fetched message: the ordered answer ids and
the optional results payload. -/
structure PlatformPoll where
  answers : List Nat
  results : Option PollResults
deriving DecidableEq

structure PlatformMessage where
  poll : Option PlatformPoll
deriving DecidableEq

/-- Outcome of fetch_message_with_poll_counts: the message, or a platform
error. -/
inductive FetchResult where
  | ok (msg : PlatformMessage)
  | err (e : String)
deriving DecidableEq

/-- Read-only collaborators: the book catalog (none = lookup failure) and
the channel NSFW flag used by the maturity gate. -/
structure Env where
  catalog : String → Option Volume
  channel_nsfw : Nat → Bool

inductive SelectFailKind where
  | alreadyCurrent
  | notInQueue
deriving DecidableEq

/-- Outward side effects, recorded in order of occurrence. -/
inductive Effect where
  | ratingSummary (channel : Nat) (completed_id : Nat)
  | noVotesMessage (channel : Nat)
  | tieMessage (channel : Nat) (votes : Nat)
  | outOfBoundsWarning (idx : Nat)
  | matureWarning (channel : Nat)
  | selectTxCall (server : Nat) (volume_id : String)
  | announceSelected (channel : Nat) (volume_id : String)
  | pinMessage
  | selectFailMessage (channel : Nat) (kind : SelectFailKind)
  | purgeAnswerCache (message_id : Nat)
  | finishTxCall (server : Nat)
  | deadlineMessageWithPoll (channel : Nat) (volume_id : String)
  | matureBlockedNotice (channel : Nat)
deriving DecidableEq

/-- SELECT ... FROM rating_polls WHERE message_id = $1 AND NOT processed
(fetch_optional), poll_handler.rs lines 608-614. -/
def findUnprocessedRatingPoll (db : Db) (mid : Nat) : Option RatingPollRow :=
  db.rating_polls.find? (fun r => r.message_id == mid && !r.processed)

/-- SELECT ... FROM selection_polls WHERE message_id = $1 AND NOT processed
(fetch_optional), poll_handler.rs lines 681-690. -/
def findUnprocessedSelectionPoll (db : Db) (mid : Nat) : Option SelectionPollRow :=
  db.selection_polls.find? (fun s => s.message_id == mid && !s.processed)

/-- UPDATE rating_polls SET processed = TRUE WHERE message_id = $1. -/
def markRatingProcessed (db : Db) (mid : Nat) : Db :=
  { db with rating_polls := db.rating_polls.map (fun r =>
      if r.message_id == mid then { r with processed := true } else r) }

/-- UPDATE selection_polls SET processed = TRUE WHERE message_id = $1. -/
def markSelectionProcessed (db : Db) (mid : Nat) : Db :=
  { db with selection_polls := db.selection_polls.map (fun s =>
      if s.message_id == mid then { s with processed := true } else s) }

/-- UPDATE selection_polls SET processed = TRUE, selected_volume_id = NULL
WHERE message_id = $1 (handle_missing_poll_message). -/
def closeSelectionClearWinner (db : Db) (mid : Nat) : Db :=
  { db with selection_polls := db.selection_polls.map (fun s =>
      if s.message_id == mid then { s with processed := true, selected_volume_id := none }
      else s) }

/-- UPDATE selection_polls SET processed = TRUE, selected_volume_id = $1
WHERE message_id = $2 (poll_handler.rs lines 924-932). -/
def setSelectionWinner (db : Db) (mid : Nat) (volume_id : String) : Db :=
  { db with selection_polls := db.selection_polls.map (fun s =>
      if s.message_id == mid then
        { s with processed := true, selected_volume_id := some volume_id }
      else s) }

/-- util.rs pin_polls_enabled: COALESCE(pin_polls, TRUE), missing row
defaults to true. -/
def pin_polls_enabled (db : Db) (server : Nat) : Bool :=
  match db.server_bot_config.find? (fun c => c.server_id == server) with
  | some c => c.pin_polls
  | none => true

/-- maturity_check.rs server_maturity_enabled_by_id: missing row defaults
to false. -/
def server_maturity_enabled_by_id (db : Db) (server : Nat) : Bool :=
  match db.server_maturity_settings.find? (fun m => m.server_id == server) with
  | some m => m.mature_content_enabled
  | none => false

/-- maturity_check.rs check_volume_maturity_event: a non-mature volume is
always allowed, otherwise the channel must be NSFW and the server setting
enabled. -/
def check_volume_maturity_event (env : Env) (db : Db) (server : Nat) (channel : Nat)
    (v : Volume) : Bool :=
  if !v.mature then true
  else env.channel_nsfw channel && server_maturity_enabled_by_id db server

/-- Modelled from the spec: the stored procedure select_book_from_queue_tx
(invoked through database_helpers::select_book_transactional) is SQL that
is not part of src/.  Spec section 6 gives
select_item_from_queue(community, item_id, announcement_channel, deadline);
its expected failures are a current item already existing and the item
having left the queue, and on success the item moves atomically from the
queue to the current slot. -/
def select_book_from_queue_tx (db : Db) (server : Nat) (volume_id : String)
    (announcement_channel_id : Option Nat) (deadline : Option Nat) :
    Db × Option SelectFailKind :=
  if (db.server_current_book.find? (fun c => c.server_id == server)).isSome then
    (db, some SelectFailKind.alreadyCurrent)
  else
    match db.server_book_queue.find? (fun q =>
        q.server_id == server && q.volume_id == volume_id) with
    | none => (db, some SelectFailKind.notInQueue)
    | some _ =>
      ({ db with
          server_book_queue := db.server_book_queue.filter (fun q =>
            !(q.server_id == server && q.volume_id == volume_id)),
          server_current_book := db.server_current_book ++
            [{ server_id := server, volume_id := volume_id, deadline := deadline,
               announcement_channel_id := announcement_channel_id }] },
        none)

/-- Modelled from the spec: the stored procedure finish_current_book_tx is
SQL that is not part of src/.  Spec section 6 gives
finish_current_item(community) returning the fresh completed record; it
fails when there is no current item, and on success moves the current item
into the completed list. -/
def finish_current_book_tx (db : Db) (server : Nat) : Db × Option (Nat × String) :=
  match db.server_current_book.find? (fun c => c.server_id == server) with
  | none => (db, none)
  | some c =>
    ({ db with
        server_current_book := db.server_current_book.filter (fun x =>
          !(x.server_id == server)),
        server_completed_books := db.server_completed_books ++
          [{ completed_id := db.next_completed_id, server_id := server,
             volume_id := c.volume_id, average_rating := none, total_ratings := some 0 }],
        next_completed_id := db.next_completed_id + 1 },
      some (db.next_completed_id, c.volume_id))

/-- The tally loop of poll_handler.rs lines 694-707: walk the reported
answer counts, mapping each answer id to its index in the answer list; a
strictly larger count resets the winner set, an equal positive count is
appended, and unmapped ids are skipped. -/
def tallyAnswers (answers : List Nat) (answer_counts : List PollAnswerCount) :
    Nat × List Nat :=
  answer_counts.foldl
    (fun acc ac =>
      match answers.findIdx? (fun a => a == ac.answer_id) with
      | some idx =>
        if acc.1 < ac.count then (ac.count, [idx])
        else if ac.count == acc.1 && !(ac.count == 0) then (acc.1, acc.2 ++ [idx])
        else acc
      | none => acc)
    (0, [])

/-- poll_handler.rs lines 731-746: with more than one tied index take the
minimum, otherwise the single head. -/
def chooseWinningIndex (winning_indices : List Nat) : Nat :=
  if 1 < winning_indices.length then (winning_indices.min?).getD 0
  else winning_indices.headD 0

/-- The "try to apply the winner" block of poll_handler.rs lines 823-979:
read the configured announcement channel, invoke the selection
transaction, and on success announce (optionally pin) and persist the
winner; on failure send the matching terminal message and still mark the
poll processed. -/
def applySelection (db : Db) (mid channel_id : Nat) (sp : SelectionPollRow)
    (winning_volume_id : String) (tie_msgs : List Effect) : Db × List Effect :=
  let announcement_channel_id :=
    (db.server_bot_config.find? (fun c => c.server_id == sp.server_id)).bind
      (fun c => c.announcement_channel_id)
  let txr := select_book_from_queue_tx db sp.server_id winning_volume_id
      announcement_channel_id sp.deadline
  match txr.2 with
  | none =>
    let target := announcement_channel_id.getD channel_id
    let pin_effects := if pin_polls_enabled txr.1 sp.server_id then [Effect.pinMessage] else []
    (setSelectionWinner txr.1 mid winning_volume_id,
      tie_msgs ++ [Effect.selectTxCall sp.server_id winning_volume_id,
        Effect.announceSelected target winning_volume_id] ++ pin_effects)
  | some e =>
    (markSelectionProcessed txr.1 mid,
      tie_msgs ++ [Effect.selectTxCall sp.server_id winning_volume_id,
        Effect.selectFailMessage channel_id e])

/-- poll_handler.rs process_poll_completion (lines 597-983).  The first
step of either branch is a conditional read returning the row only where
NOT processed; side effects follow, and the processed flag is written by a
separate unconditional update. -/
def process_poll_completion (env : Env) (db : Db) (channel_id mid : Nat)
    (poll : PlatformPoll) : Db × List Effect :=
  match findUnprocessedRatingPoll db mid with
  | some rp =>
    let db1 := markRatingProcessed db mid
    let msgs :=
      match db1.server_completed_books.find? (fun b => b.completed_id == rp.completed_id) with
      | some _ => [Effect.ratingSummary rp.channel_id rp.completed_id]
      | none => []
    (db1, msgs ++ [Effect.purgeAnswerCache mid])
  | none =>
    match findUnprocessedSelectionPoll db mid with
    | some sp =>
      match poll.results with
      | some results =>
        let tallied := tallyAnswers poll.answers results.answer_counts
        if tallied.2.isEmpty || tallied.1 == 0 then
          (markSelectionProcessed db mid, [Effect.noVotesMessage channel_id])
        else
          let tie_msgs :=
            if 1 < tallied.2.length then [Effect.tieMessage channel_id tallied.1] else []
          let winning_index := chooseWinningIndex tallied.2
          if sp.book_options.length ≤ winning_index then
            (markSelectionProcessed db mid,
              tie_msgs ++ [Effect.outOfBoundsWarning winning_index])
          else
            let winning_volume_id := sp.book_options.getD winning_index ""
            match env.catalog winning_volume_id with
            | some v =>
              if check_volume_maturity_event env db sp.server_id channel_id v then
                applySelection db mid channel_id sp winning_volume_id tie_msgs
              else
                (markSelectionProcessed db mid, tie_msgs ++ [Effect.matureWarning channel_id])
            | none =>
              applySelection db mid channel_id sp winning_volume_id tie_msgs
      | none => (db, [])
    | none => (db, [])

/-- poll_handler.rs handle_missing_poll_message (lines 454-547): when the
poll message cannot be fetched, defensively close the database row; a
rating poll is marked processed and its cache entry purged, a selection
poll is marked processed with its stale winner cleared. -/
def handle_missing_poll_message (db : Db) (channel_id mid : Nat) : Db × List Effect :=
  match db.rating_polls.find? (fun r => r.message_id == mid) with
  | some rp =>
    if rp.processed then (db, [Effect.purgeAnswerCache mid])
    else (markRatingProcessed db mid, [Effect.purgeAnswerCache mid])
  | none =>
    match db.selection_polls.find? (fun s => s.message_id == mid) with
    | some sp =>
      if sp.processed then (db, [])
      else (closeSelectionClearWinner db mid, [])
    | none => (db, [])

/-- poll_handler.rs check_poll_for_completion (lines 550-583): fetch the
message with poll counts; on success resolve only a finalized poll, on
fetch failure fall back to handle_missing_poll_message. -/
def check_poll_for_completion (env : Env) (fetched : FetchResult) (db : Db)
    (channel_id mid : Nat) : Db × List Effect :=
  match fetched with
  | FetchResult.ok msg =>
    match msg.poll with
    | some poll =>
      match poll.results with
      | some results =>
        if results.is_finalized then
          process_poll_completion env db channel_id mid poll
        else (db, [])
      | none => (db, [])
    | none => (db, [])
  | FetchResult.err _ => handle_missing_poll_message db channel_id mid

/-- The 60-second sweeper query of selection_poll_handler.rs lines 33-42:
SELECT message_id, channel_id FROM selection_polls WHERE NOT processed AND
expires_at <= NOW(). -/
def expired_unprocessed_selection_polls (db : Db) (now : Nat) : List SelectionPollRow :=
  db.selection_polls.filter (fun p => !p.processed && decide (p.expires_at ≤ now))

/-- selection_poll_handler.rs check_expired_polls (lines 27-63): the short
sweep resolves each row of the snapshot through
check_poll_for_completion. -/
def check_expired_polls (env : Env) (fetchOf : Nat → FetchResult) (db : Db) (now : Nat) :
    Db × List Effect :=
  (expired_unprocessed_selection_polls db now).foldl
    (fun acc p =>
      let step := check_poll_for_completion env (fetchOf p.message_id) acc.1
        p.channel_id p.message_id
      (step.1, acc.2 ++ step.2))
    (db, [])

/-- select.rs lines 66-77: the stale-poll repair update of
active_selection_poll_row. -/
def cleanup_stale_selection_polls (db : Db) (server now : Nat) : Db :=
  { db with selection_polls := db.selection_polls.map (fun s =>
      if s.server_id == server && !s.processed && decide (s.expires_at ≤ now)
      then { s with processed := true } else s) }

/-- select.rs active_selection_poll_row (lines 56-93): repair stale rows,
then return the live poll with the latest expiry (ORDER BY expires_at DESC
LIMIT 1). -/
def active_selection_poll_row (db : Db) (server now : Nat) :
    Db × Option (Nat × Nat) :=
  let db1 := cleanup_stale_selection_polls db server now
  let live := db1.selection_polls.filter (fun s =>
      s.server_id == server && !s.processed && decide (now < s.expires_at))
  let chosen := live.foldl
    (fun best s =>
      match best with
      | none => some s
      | some b => if b.expires_at < s.expires_at then some s else best)
    none
  (db1, chosen.map (fun s => (s.message_id, s.channel_id)))

inductive GuardChoice where
  | cancelAndProceed
  | keepPoll
  | timeout
deriving DecidableEq

inductive GuardOutcome where
  | noActivePoll
  | keepPoll
  | cancelledProceed
deriving DecidableEq

/-- select.rs lines 146-151: UPDATE selection_polls SET processed = TRUE
WHERE server_id = $1 AND NOT processed. -/
def cancel_open_selection_polls (db : Db) (server : Nat) : Db :=
  { db with selection_polls := db.selection_polls.map (fun s =>
      if s.server_id == server && !s.processed then { s with processed := true } else s) }

/-- select.rs interactive_poll_guard (lines 95-196): no active poll lets
the action proceed; with an active poll the invoker chooses, and a timeout
defaults to keeping the poll. -/
def interactive_poll_guard (db : Db) (server now : Nat) (choice : GuardChoice) :
    Db × GuardOutcome :=
  let checked := active_selection_poll_row db server now
  match checked.2 with
  | none => (checked.1, GuardOutcome.noActivePoll)
  | some _ =>
    match choice with
    | GuardChoice.cancelAndProceed =>
      (cancel_open_selection_polls checked.1 server, GuardOutcome.cancelledProceed)
    | GuardChoice.keepPoll => (checked.1, GuardOutcome.keepPoll)
    | GuardChoice.timeout => (checked.1, GuardOutcome.keepPoll)

/-- poll_handler.rs build_rating_answer_map (lines 45-51): answer id to
1-based index. -/
def build_rating_answer_map (answers : List Nat) : List (Nat × Nat) :=
  answers.enum.map (fun p => (p.2, p.1 + 1))

/-- poll_handler.rs resolve_rating_choice (lines 64-101), with the
process-local cache modelled away (it holds exactly the map rebuilt here
from the immutable answers): a fetch error propagates, a message without a
poll or an unmapped answer id yields none. -/
def resolve_rating_choice (fetched : FetchResult) (answer_id : Nat) :
    Except String (Option Nat) :=
  match fetched with
  | FetchResult.err e => Except.error e
  | FetchResult.ok msg =>
    match msg.poll with
    | none => Except.ok none
    | some poll => Except.ok ((build_rating_answer_map poll.answers).lookup answer_id)

/-- INSERT INTO user_book_ratings ... ON CONFLICT (user_id, completed_id)
DO UPDATE SET rating = $3 (poll_handler.rs lines 354-366). -/
def upsert_rating (tbl : List UserBookRatingRow) (uid cid rating : Nat) :
    List UserBookRatingRow :=
  if tbl.any (fun r => r.user_id == uid && r.completed_id == cid) then
    tbl.map (fun r =>
      if r.user_id == uid && r.completed_id == cid then { r with rating := rating } else r)
  else
    tbl ++ [{ user_id := uid, completed_id := cid, rating := rating }]

/-- poll_handler.rs process_rating_vote_add (lines 321-389): a vote on an
unknown message is ignored; a resolvable vote on a known rating poll
upserts the member's rating for the completed item. -/
def process_rating_vote_add (fetched : FetchResult) (db : Db) (mid uid answer_id : Nat) :
    Except String (Db × List Effect) :=
  match db.rating_polls.find? (fun r => r.message_id == mid) with
  | none => Except.ok (db, [])
  | some rp =>
    match resolve_rating_choice fetched answer_id with
    | Except.error e => Except.error e
    | Except.ok none => Except.ok (db, [])
    | Except.ok (some rating) =>
      Except.ok
        ({ db with user_book_ratings :=
            upsert_rating db.user_book_ratings uid rp.completed_id rating }, [])

/-- poll_handler.rs process_rating_vote_remove (lines 392-452): delete the
matching rating row if present; absence is not an error. -/
def process_rating_vote_remove (db : Db) (mid uid : Nat) : Db × List Effect :=
  match db.rating_polls.find? (fun r => r.message_id == mid) with
  | none => (db, [])
  | some rp =>
    ({ db with user_book_ratings := db.user_book_ratings.filter (fun r =>
        !(r.user_id == uid && r.completed_id == rp.completed_id)) }, [])

/-- INSERT INTO rating_polls ... ON CONFLICT (message_id) DO NOTHING. -/
def insert_rating_poll (db : Db) (row : RatingPollRow) : Db :=
  if db.rating_polls.any (fun r => r.message_id == row.message_id) then db
  else { db with rating_polls := db.rating_polls ++ [row] }

/-- INSERT INTO selection_polls ... ON CONFLICT (message_id) DO NOTHING
(select.rs lines 484-496). -/
def create_selection_poll (db : Db) (mid channel server : Nat) (book_ids : List String)
    (expires_at : Nat) (deadline : Option Nat) : Db :=
  if db.selection_polls.any (fun s => s.message_id == mid) then db
  else
    { db with selection_polls := db.selection_polls ++
        [{ message_id := mid, channel_id := channel, server_id := server,
           book_options := book_ids, deadline := deadline, expires_at := expires_at,
           processed := false, selected_volume_id := none }] }

/-- The rating-poll lifetime used by the deadline watcher, 6 days and 23
hours, in abstract time units. -/
def rating_poll_duration : Nat := 167

/-- deadline_handler.rs lines 56-206, one row of the deadline sweep:
finish the current book transactionally; when a target channel exists and
the maturity gate permits (a failed catalog lookup is treated as
permitting), post the completion message with its rating poll and insert
the rating_polls row; otherwise post the blocking warnings. -/
def process_deadline_row (env : Env) (db : Db) (now new_mid : Nat)
    (row : CurrentBookRow) (cfg : BotConfigRow) : Db × List Effect :=
  let server := row.server_id
  let fin := finish_current_book_tx db server
  match fin.2 with
  | none => (fin.1, [Effect.finishTxCall server])
  | some cinfo =>
    let db1 := fin.1
    let target :=
      match cfg.announcement_channel_id with
      | some a => some a
      | none => row.announcement_channel_id
    match target with
    | none => (db1, [Effect.finishTxCall server])
    | some ch =>
      let can_show :=
        match env.catalog row.volume_id with
        | some v => check_volume_maturity_event env db1 server ch v
        | none => true
      if can_show then
        let pin_effects :=
          if pin_polls_enabled db1 server then [Effect.pinMessage] else []
        let db2 := insert_rating_poll db1
          { message_id := new_mid, channel_id := ch, server_id := server,
            completed_id := cinfo.1, expires_at := now + rating_poll_duration,
            processed := false }
        (db2, Effect.finishTxCall server ::
          Effect.deadlineMessageWithPoll ch row.volume_id :: pin_effects)
      else
        (db1, [Effect.finishTxCall server, Effect.matureWarning ch,
          Effect.matureBlockedNotice ch])

/-- The deadline sweep query of deadline_handler.rs lines 37-54: current
books past their deadline in communities with auto-completion enabled. -/
def deadline_rows (db : Db) (now : Nat) : List (CurrentBookRow × BotConfigRow) :=
  db.server_current_book.filterMap (fun c =>
    match db.server_bot_config.find? (fun cfg => cfg.server_id == c.server_id) with
    | some cfg =>
      if (match c.deadline with
          | some d => decide (d ≤ now)
          | none => false) && cfg.auto_complete_on_deadline
      then some (c, cfg) else none
    | none => none)

/-- deadline_handler.rs process_deadlines (lines 32-209): sweep every
deadline row, threading the database. -/
def process_deadlines (env : Env) (db : Db) (now : Nat) (midOf : Nat → Nat) :
    Db × List Effect :=
  (deadline_rows db now).foldl
    (fun acc pr =>
      let step := process_deadline_row env acc.1 now (midOf pr.1.server_id) pr.1 pr.2
      (step.1, acc.2 ++ step.2))
    (db, [])

/-- Program counter of one trigger running the rating branch of
process_poll_completion, with one atomic database or platform operation
per step (every await of the source is a suspension point). -/
inductive RPhase where
  | start
  | selected (rp : RatingPollRow)
  | marked (rp : RatingPollRow)
  | statsRead (rp : RatingPollRow) (found : Bool)
  | summarySent (rp : RatingPollRow)
  | done
deriving DecidableEq

/-- One atomic step of the rating branch of process_poll_completion: the
conditional read, the processed update, the aggregate read, the summary
send, and the cache purge. -/
def rating_resolution_step (mid : Nat) (ph : RPhase) (db : Db) :
    RPhase × Db × List Effect :=
  match ph with
  | RPhase.start =>
    match findUnprocessedRatingPoll db mid with
    | some rp => (RPhase.selected rp, db, [])
    | none => (RPhase.done, db, [])
  | RPhase.selected rp => (RPhase.marked rp, markRatingProcessed db mid, [])
  | RPhase.marked rp =>
    (RPhase.statsRead rp
      ((db.server_completed_books.find? (fun b => b.completed_id == rp.completed_id)).isSome),
      db, [])
  | RPhase.statsRead rp found =>
    if found then
      (RPhase.summarySent rp, db, [Effect.ratingSummary rp.channel_id rp.completed_id])
    else (RPhase.summarySent rp, db, [])
  | RPhase.summarySent rp => (RPhase.done, db, [Effect.purgeAnswerCache mid])
  | RPhase.done => (RPhase.done, db, [])

/-- Two triggers (event path and sweep path) resolving the same poll,
interleaved by a schedule of thread choices. -/
structure ConcState where
  t1 : RPhase
  t2 : RPhase
  db : Db
  trace : List Effect
deriving DecidableEq

def run_interleaving (mid : Nat) : List Bool → ConcState → ConcState
  | [], st => st
  | b :: rest, st =>
    if b then
      let s := rating_resolution_step mid st.t1 st.db
      run_interleaving mid rest { st with t1 := s.1, db := s.2.1, trace := st.trace ++ s.2.2 }
    else
      let s := rating_resolution_step mid st.t2 st.db
      run_interleaving mid rest { st with t2 := s.1, db := s.2.1, trace := st.trace ++ s.2.2 }

/-- A fetch outcome that lets check_poll_for_completion reach resolution:
either a failure, or a message carrying a finalized poll. -/
def reports_finalized (f : FetchResult) : Bool :=
  match f with
  | FetchResult.err _ => true
  | FetchResult.ok msg =>
    match msg.poll with
    | some p =>
      match p.results with
      | some r => r.is_finalized
      | none => false
    | none => false

def emptyDb : Db :=
  { rating_polls := [], selection_polls := [], user_book_ratings := [],
    server_completed_books := [], server_book_queue := [], server_current_book := [],
    server_bot_config := [], server_maturity_settings := [], next_completed_id := 0 }

/-- A trivial environment for concrete executions: every catalog lookup
fails and no channel is NSFW. -/
def env0 : Env :=
  { catalog := fun _ => none, channel_nsfw := fun _ => false }

/-- The maximum of the reported per-answer counts (0 for an empty
report). -/
def maxReportedCount (answer_counts : List PollAnswerCount) : Nat :=
  answer_counts.foldl (fun m ac => max m ac.count) 0

/-- Rating-poll rows evolve: identity is preserved and the processed flag
is monotone. -/
def ratingEvolves (r r' : RatingPollRow) : Prop :=
  r'.message_id = r.message_id ∧ r'.channel_id = r.channel_id ∧
  r'.server_id = r.server_id ∧ r'.completed_id = r.completed_id ∧
  r'.expires_at = r.expires_at ∧ (r.processed = true → r'.processed = true)

/-- Selection-poll rows evolve: every field other than the processed flag
and the selected winner is preserved, and the processed flag is
monotone. -/
def selectionEvolves (s s' : SelectionPollRow) : Prop :=
  s'.message_id = s.message_id ∧ s'.channel_id = s.channel_id ∧
  s'.server_id = s.server_id ∧ s'.book_options = s.book_options ∧
  s'.deadline = s.deadline ∧ s'.expires_at = s.expires_at ∧
  (s.processed = true → s'.processed = true)

/-- Processed-flag monotonicity between database states: rows existing
before an operation still exist afterwards (operations only update in
place or append), and no processed flag moves from true to false. -/
def pollsMonotone (db db' : Db) : Prop :=
  List.Forall₂ (fun (r r' : RatingPollRow) => r.processed = true → r'.processed = true)
    db.rating_polls (db'.rating_polls.take db.rating_polls.length) ∧
  List.Forall₂ (fun (s s' : SelectionPollRow) => s.processed = true → s'.processed = true)
    db.selection_polls (db'.selection_polls.take db.selection_polls.length)

/-- The uniqueness constraint behind ON CONFLICT (user_id, completed_id):
no two rows share the same key. -/
def atMostOnePerKey (tbl : List UserBookRatingRow) : Prop :=
  List.Pairwise (fun a b => ¬(a.user_id = b.user_id ∧ a.completed_id = b.completed_id)) tbl

/-- The stored rating of a user for a completed item. -/
def currentRating (tbl : List UserBookRatingRow) (uid cid : Nat) : Option Nat :=
  (tbl.find? (fun r => r.user_id == uid && r.completed_id == cid)).map (fun r => r.rating)

/-! ### Generic list helpers -/

theorem forall2_comp {α : Type} {r : α → α → Prop}
    (ht : ∀ a b c, r a b → r b c → r a c) :
    ∀ {l₁ l₂ l₃ : List α}, List.Forall₂ r l₁ l₂ → List.Forall₂ r l₂ l₃ →
      List.Forall₂ r l₁ l₃
  | [], [], [], _, _ => List.Forall₂.nil
  | _ :: _, _ :: _, _ :: _, List.Forall₂.cons h₁ h₂, List.Forall₂.cons h₃ h₄ =>
    List.Forall₂.cons (ht _ _ _ h₁ h₃) (forall2_comp ht h₂ h₄)

theorem forall2_mem_right {α β : Type} {r : α → β → Prop} :
    ∀ {l : List α} {l' : List β}, List.Forall₂ r l l' → ∀ {b : β}, b ∈ l' →
      ∃ a ∈ l, r a b
  | _, _, List.Forall₂.cons h₁ h₂, b, hb => by
    rcases List.mem_cons.1 hb with hb | hb
    · exact ⟨_, List.mem_cons_self _ _, hb ▸ h₁⟩
    · rcases forall2_mem_right h₂ hb with ⟨a, ha, hr⟩
      exact ⟨a, List.mem_cons_of_mem _ ha, hr⟩

theorem forall2_map_self {α : Type} {r : α → α → Prop} (f : α → α)
    (hf : ∀ x, r x (f x)) (l : List α) : List.Forall₂ r l (l.map f) := by
  rw [List.forall₂_map_right_iff]
  exact List.forall₂_same.2 fun x _ => hf x

/-! ### Basic facts about the row updates -/

theorem markRatingProcessed_selection_polls (db : Db) (mid : Nat) :
    (markRatingProcessed db mid).selection_polls = db.selection_polls := rfl

theorem markSelectionProcessed_rating_polls (db : Db) (mid : Nat) :
    (markSelectionProcessed db mid).rating_polls = db.rating_polls := rfl

theorem closeSelectionClearWinner_rating_polls (db : Db) (mid : Nat) :
    (closeSelectionClearWinner db mid).rating_polls = db.rating_polls := rfl

theorem setSelectionWinner_rating_polls (db : Db) (mid : Nat) (v : String) :
    (setSelectionWinner db mid v).rating_polls = db.rating_polls := rfl

theorem select_tx_rating_polls (db : Db) (server : Nat) (v : String)
    (ann : Option Nat) (dl : Option Nat) :
    (select_book_from_queue_tx db server v ann dl).1.rating_polls = db.rating_polls := by
  unfold select_book_from_queue_tx
  split
  · rfl
  · split <;> rfl

theorem select_tx_selection_polls (db : Db) (server : Nat) (v : String)
    (ann : Option Nat) (dl : Option Nat) :
    (select_book_from_queue_tx db server v ann dl).1.selection_polls = db.selection_polls := by
  unfold select_book_from_queue_tx
  split
  · rfl
  · split <;> rfl

theorem finish_tx_rating_polls (db : Db) (server : Nat) :
    (finish_current_book_tx db server).1.rating_polls = db.rating_polls := by
  unfold finish_current_book_tx
  split <;> rfl

theorem finish_tx_selection_polls (db : Db) (server : Nat) :
    (finish_current_book_tx db server).1.selection_polls = db.selection_polls := by
  unfold finish_current_book_tx
  split <;> rfl

theorem findUnprocessedRatingPoll_mark (db : Db) (mid : Nat) :
    findUnprocessedRatingPoll (markRatingProcessed db mid) mid = none := by
  unfold findUnprocessedRatingPoll markRatingProcessed
  rw [List.find?_eq_none]
  intro x hx
  rcases List.mem_map.1 hx with ⟨y, hy, rfl⟩
  by_cases h : y.message_id == mid <;> simp [h]

theorem findUnprocessedSelectionPoll_mark (db : Db) (mid : Nat) :
    findUnprocessedSelectionPoll (markSelectionProcessed db mid) mid = none := by
  unfold findUnprocessedSelectionPoll markSelectionProcessed
  rw [List.find?_eq_none]
  intro x hx
  rcases List.mem_map.1 hx with ⟨y, hy, rfl⟩
  by_cases h : y.message_id == mid <;> simp [h]

theorem findUnprocessedSelectionPoll_close (db : Db) (mid : Nat) :
    findUnprocessedSelectionPoll (closeSelectionClearWinner db mid) mid = none := by
  unfold findUnprocessedSelectionPoll closeSelectionClearWinner
  rw [List.find?_eq_none]
  intro x hx
  rcases List.mem_map.1 hx with ⟨y, hy, rfl⟩
  by_cases h : y.message_id == mid <;> simp [h]

theorem findUnprocessedSelectionPoll_setWinner (db : Db) (mid : Nat) (v : String) :
    findUnprocessedSelectionPoll (setSelectionWinner db mid v) mid = none := by
  unfold findUnprocessedSelectionPoll setSelectionWinner
  rw [List.find?_eq_none]
  intro x hx
  rcases List.mem_map.1 hx with ⟨y, hy, rfl⟩
  by_cases h : y.message_id == mid <;> simp [h]

theorem findUnprocessedRatingPoll_eq_none (db : Db) (mid : Nat)
    (h : ∀ r ∈ db.rating_polls, r.message_id = mid → r.processed = true) :
    findUnprocessedRatingPoll db mid = none := by
  unfold findUnprocessedRatingPoll
  rw [List.find?_eq_none]
  intro x hx
  by_cases hm : x.message_id = mid
  · have := h x hx hm
    simp [this]
  · simp [hm]

theorem findUnprocessedSelectionPoll_eq_none (db : Db) (mid : Nat)
    (h : ∀ s ∈ db.selection_polls, s.message_id = mid → s.processed = true) :
    findUnprocessedSelectionPoll db mid = none := by
  unfold findUnprocessedSelectionPoll
  rw [List.find?_eq_none]
  intro x hx
  by_cases hm : x.message_id = mid
  · have := h x hx hm
    simp [this]
  · simp [hm]

theorem applySelection_rating_polls (db : Db) (mid ch : Nat) (sp : SelectionPollRow)
    (v : String) (t : List Effect) :
    (applySelection db mid ch sp v t).1.rating_polls = db.rating_polls := by
  unfold applySelection
  dsimp only
  split
  · rw [setSelectionWinner_rating_polls, select_tx_rating_polls]
  · rw [markSelectionProcessed_rating_polls, select_tx_rating_polls]

theorem applySelection_closes (db : Db) (mid ch : Nat) (sp : SelectionPollRow)
    (v : String) (t : List Effect) :
    findUnprocessedSelectionPoll (applySelection db mid ch sp v t).1 mid = none := by
  unfold applySelection
  dsimp only
  split
  · exact findUnprocessedSelectionPoll_setWinner _ _ _
  · exact findUnprocessedSelectionPoll_mark _ _

/-! ### Branch lemmas for process_poll_completion -/

theorem process_abort (env : Env) (db : Db) (ch mid : Nat) (poll : PlatformPoll)
    (h1 : findUnprocessedRatingPoll db mid = none)
    (h2 : findUnprocessedSelectionPoll db mid = none) :
    process_poll_completion env db ch mid poll = (db, []) := by
  unfold process_poll_completion
  rw [h1, h2]

theorem process_rating_branch (env : Env) (db : Db) (ch mid : Nat) (poll : PlatformPoll)
    (rp : RatingPollRow) (h : findUnprocessedRatingPoll db mid = some rp) :
    process_poll_completion env db ch mid poll =
      (markRatingProcessed db mid,
        (match (markRatingProcessed db mid).server_completed_books.find?
            (fun b => b.completed_id == rp.completed_id) with
         | some _ => [Effect.ratingSummary rp.channel_id rp.completed_id]
         | none => []) ++ [Effect.purgeAnswerCache mid]) := by
  unfold process_poll_completion
  rw [h]

theorem process_no_results (env : Env) (db : Db) (ch mid : Nat) (poll : PlatformPoll)
    (sp : SelectionPollRow)
    (h1 : findUnprocessedRatingPoll db mid = none)
    (h2 : findUnprocessedSelectionPoll db mid = some sp)
    (h3 : poll.results = none) :
    process_poll_completion env db ch mid poll = (db, []) := by
  unfold process_poll_completion
  rw [h1, h2, h3]

theorem process_selection_closes (env : Env) (db : Db) (ch mid : Nat)
    (poll : PlatformPoll) (sp : SelectionPollRow) (results : PollResults)
    (h1 : findUnprocessedRatingPoll db mid = none)
    (h2 : findUnprocessedSelectionPoll db mid = some sp)
    (h3 : poll.results = some results) :
    findUnprocessedSelectionPoll (process_poll_completion env db ch mid poll).1 mid = none := by
  unfold process_poll_completion
  rw [h1, h2, h3]
  dsimp only
  split
  · exact findUnprocessedSelectionPoll_mark _ _
  · split
    · exact findUnprocessedSelectionPoll_mark _ _
    · split
      · split
        · exact applySelection_closes _ _ _ _ _ _
        · exact findUnprocessedSelectionPoll_mark _ _
      · exact applySelection_closes _ _ _ _ _ _

theorem process_selection_rating_polls (env : Env) (db : Db) (ch mid : Nat)
    (poll : PlatformPoll) (sp : SelectionPollRow) (results : PollResults)
    (h1 : findUnprocessedRatingPoll db mid = none)
    (h2 : findUnprocessedSelectionPoll db mid = some sp)
    (h3 : poll.results = some results) :
    (process_poll_completion env db ch mid poll).1.rating_polls = db.rating_polls := by
  unfold process_poll_completion
  rw [h1, h2, h3]
  dsimp only
  split
  · exact markSelectionProcessed_rating_polls _ _
  · split
    · exact markSelectionProcessed_rating_polls _ _
    · split
      · split
        · exact applySelection_rating_polls _ _ _ _ _ _
        · exact markSelectionProcessed_rating_polls _ _
      · exact applySelection_rating_polls _ _ _ _ _ _

/-- Once a resolution run has returned, a second sequential run of the
resolution entry point for the same message changes nothing and emits no
effects (the message ids of rating and selection polls are assumed
disjoint, as Discord message ids are unique). -/
theorem process_twice_noop (env : Env) (db : Db) (ch mid : Nat) (poll : PlatformPoll)
    (hdisj : ∀ r ∈ db.rating_polls, ∀ s ∈ db.selection_polls,
      r.message_id ≠ s.message_id) :
    process_poll_completion env (process_poll_completion env db ch mid poll).1 ch mid poll =
      ((process_poll_completion env db ch mid poll).1, []) := by
  rcases hr : findUnprocessedRatingPoll db mid with _ | rp
  · rcases hs : findUnprocessedSelectionPoll db mid with _ | sp
    · rw [process_abort env db ch mid poll hr hs]
      exact process_abort env db ch mid poll hr hs
    · rcases hres : poll.results with _ | results
      · rw [process_no_results env db ch mid poll sp hr hs hres]
        exact process_no_results env db ch mid poll sp hr hs hres
      · apply process_abort
        · unfold findUnprocessedRatingPoll at hr ⊢
          rw [process_selection_rating_polls env db ch mid poll sp results hr hs hres]
          exact hr
        · exact process_selection_closes env db ch mid poll sp results hr hs hres
  · have hmem : rp ∈ db.rating_polls := List.mem_of_find?_eq_some hr
    have hp := List.find?_some hr
    simp only [Bool.and_eq_true, beq_iff_eq, Bool.not_eq_true'] at hp
    have hmid : rp.message_id = mid := hp.1
    rw [process_rating_branch env db ch mid poll rp hr]
    dsimp only
    apply process_abort
    · exact findUnprocessedRatingPoll_mark db mid
    · have hnone : findUnprocessedSelectionPoll db mid = none := by
        unfold findUnprocessedSelectionPoll
        rw [List.find?_eq_none]
        intro s hsmem
        have hdd : rp.message_id ≠ s.message_id := hdisj rp hmem s hsmem
        have hne : ¬(s.message_id = mid) := fun h => hdd (by rw [hmid, h])
        simp [hne]
      unfold findUnprocessedSelectionPoll at hnone ⊢
      rw [markRatingProcessed_selection_polls]
      exact hnone

/-! ### Characterisation of the tally loop -/

theorem foldl_max_ge_init (c : List PollAnswerCount) :
    ∀ m : Nat, m ≤ c.foldl (fun a ac => max a ac.count) m := by
  induction c with
  | nil => intro m; exact Nat.le_refl m
  | cons x c ih =>
    intro m
    exact le_trans (Nat.le_max_left m x.count) (ih (max m x.count))

theorem count_le_maxReportedCount (c : List PollAnswerCount) :
    ∀ ac ∈ c, ac.count ≤ maxReportedCount c := by
  unfold maxReportedCount
  suffices h : ∀ m, ∀ ac ∈ c, ac.count ≤ c.foldl (fun a x => max a x.count) m from h 0
  induction c with
  | nil => intro m ac h; cases h
  | cons x c ih =>
    intro m ac hmem
    rcases List.mem_cons.1 hmem with rfl | hmem'
    · exact le_trans (Nat.le_max_right m ac.count) (foldl_max_ge_init c _)
    · exact ih (max m x.count) ac hmem'

theorem maxReportedCount_append (c : List PollAnswerCount) (ac : PollAnswerCount) :
    maxReportedCount (c ++ [ac]) = max (maxReportedCount c) ac.count := by
  unfold maxReportedCount
  rw [List.foldl_append]
  rfl

/-- The tally loop computes exactly the maximum reported count together
with the indices attaining it, provided every reported answer id maps to
an answer index. -/
theorem tallyAnswers_spec (answers : List Nat) (counts : List PollAnswerCount)
    (hfind : ∀ ac ∈ counts, (answers.findIdx? (fun a => a == ac.answer_id)).isSome) :
    (tallyAnswers answers counts).1 = maxReportedCount counts ∧
      ∀ i : Nat, i ∈ (tallyAnswers answers counts).2 ↔
        ∃ ac ∈ counts, answers.findIdx? (fun a => a == ac.answer_id) = some i ∧
          ac.count = maxReportedCount counts ∧ 0 < ac.count := by
  induction counts using List.reverseRecOn with
  | nil => simp [tallyAnswers, maxReportedCount]
  | append_singleton c ac ih =>
    have hfc : ∀ x ∈ c, (answers.findIdx? (fun a => a == x.answer_id)).isSome :=
      fun x hx => hfind x (List.mem_append_left _ hx)
    obtain ⟨hm, hl⟩ := ih hfc
    obtain ⟨i0, hi0⟩ := Option.isSome_iff_exists.1 (hfind ac (by simp))
    have hbound := count_le_maxReportedCount c
    have hstep : tallyAnswers answers (c ++ [ac]) =
        (if (tallyAnswers answers c).1 < ac.count then (ac.count, [i0])
         else if ac.count == (tallyAnswers answers c).1 && !(ac.count == 0) then
           ((tallyAnswers answers c).1, (tallyAnswers answers c).2 ++ [i0])
         else tallyAnswers answers c) := by
      show (List.foldl _ (0, []) (c ++ [ac])) = _
      rw [List.foldl_append]
      show (match answers.findIdx? (fun a => a == ac.answer_id) with
            | some idx =>
              if (tallyAnswers answers c).1 < ac.count then (ac.count, [idx])
              else if ac.count == (tallyAnswers answers c).1 && !(ac.count == 0) then
                ((tallyAnswers answers c).1, (tallyAnswers answers c).2 ++ [idx])
              else tallyAnswers answers c
            | none => tallyAnswers answers c) = _
      rw [hi0]
    rw [maxReportedCount_append]
    by_cases h1 : (tallyAnswers answers c).1 < ac.count
    · rw [hm] at h1
      have hmax : max (maxReportedCount c) ac.count = ac.count :=
        Nat.max_eq_right (Nat.le_of_lt h1)
      rw [hstep, if_pos (hm ▸ h1), hmax]
      refine ⟨rfl, fun i => ?_⟩
      constructor
      · intro hi
        rcases List.mem_singleton.1 hi with rfl
        exact ⟨ac, by simp, hi0, rfl, Nat.lt_of_le_of_lt (Nat.zero_le _) h1⟩
      · rintro ⟨x, hx, hfi, hcnt, hpos⟩
        rcases List.mem_append.1 hx with hx | hx
        · exact absurd hcnt (Nat.ne_of_lt (Nat.lt_of_le_of_lt (hbound x hx) h1))
        · rcases List.mem_singleton.1 hx with rfl
          rw [hfi] at hi0
          simp [Option.some.injEq] at hi0
          simp [hi0]
    · by_cases h2 : ac.count = (tallyAnswers answers c).1 ∧ ac.count ≠ 0
      · have hcond : (ac.count == (tallyAnswers answers c).1 && !(ac.count == 0)) = true := by
          rw [← h2.1]
          simp [h2.2]
        have hle : ac.count ≤ maxReportedCount c := by rw [← hm, h2.1]
        have hmax : max (maxReportedCount c) ac.count = maxReportedCount c :=
          Nat.max_eq_left hle
        rw [hstep, if_neg h1, if_pos hcond, hmax]
        refine ⟨hm, fun i => ?_⟩
        rw [List.mem_append]
        constructor
        · intro hi
          rcases hi with hi | hi
          · rcases (hl i).1 hi with ⟨x, hx, hfi, hcnt, hpos⟩
            exact ⟨x, List.mem_append_left _ hx, hfi, hcnt, hpos⟩
          · rcases List.mem_singleton.1 hi with rfl
            refine ⟨ac, by simp, hi0, ?_, Nat.pos_of_ne_zero h2.2⟩
            rw [h2.1, hm]
        · rintro ⟨x, hx, hfi, hcnt, hpos⟩
          rcases List.mem_append.1 hx with hx | hx
          · exact Or.inl ((hl i).2 ⟨x, hx, hfi, hcnt, hpos⟩)
          · rcases List.mem_singleton.1 hx with rfl
            rw [hfi] at hi0
            simp only [Option.some.injEq] at hi0
            exact Or.inr (List.mem_singleton.2 hi0)
      · have hle : ac.count ≤ (tallyAnswers answers c).1 := Nat.le_of_not_lt h1
        have hcond : (ac.count == (tallyAnswers answers c).1 && !(ac.count == 0)) = false := by
          rcases Decidable.not_and_iff_or_not.1 h2 with h | h
          · simp [h]
          · have : ac.count = 0 := Decidable.not_not.1 h
            simp [this]
        have hmax : max (maxReportedCount c) ac.count = maxReportedCount c :=
          Nat.max_eq_left (hm ▸ hle)
        rw [hstep, if_neg h1, hcond, hmax]
        simp only [Bool.false_eq_true, if_false]
        refine ⟨hm, fun i => ?_⟩
        constructor
        · intro hi
          rcases (hl i).1 hi with ⟨x, hx, hfi, hcnt, hpos⟩
          exact ⟨x, List.mem_append_left _ hx, hfi, hcnt, hpos⟩
        · rintro ⟨x, hx, hfi, hcnt, hpos⟩
          rcases List.mem_append.1 hx with hx | hx
          · exact (hl i).2 ⟨x, hx, hfi, hcnt, hpos⟩
          · rcases List.mem_singleton.1 hx with rfl
            exfalso
            rcases Decidable.not_and_iff_or_not.1 h2 with h | h
            · exact h (by rw [hcnt, hm])
            · exact (Decidable.not_not.1 h ▸ hpos).false

theorem maxReportedCount_attained (c : List PollAnswerCount)
    (h : 0 < maxReportedCount c) : ∃ ac ∈ c, ac.count = maxReportedCount c := by
  induction c using List.reverseRecOn with
  | nil => simp [maxReportedCount] at h
  | append_singleton c ac ih =>
    rw [maxReportedCount_append] at h ⊢
    by_cases hc : ac.count ≤ maxReportedCount c
    · rw [Nat.max_eq_left hc] at h ⊢
      rcases ih h with ⟨x, hx, he⟩
      exact ⟨x, List.mem_append_left _ hx, he⟩
    · rw [Nat.max_eq_right (Nat.le_of_lt (Nat.lt_of_not_le hc))]
      exact ⟨ac, by simp, rfl⟩

theorem chooseWinningIndex_min (l : List Nat) (hne : l ≠ []) :
    chooseWinningIndex l ∈ l ∧ ∀ j ∈ l, chooseWinningIndex l ≤ j := by
  unfold chooseWinningIndex
  by_cases h : 1 < l.length
  · rw [if_pos h]
    rcases l with _ | ⟨x, xs⟩
    · exact absurd rfl hne
    · have hsome : (x :: xs).min?.isSome :=
        List.isSome_min?_of_mem (List.mem_cons_self x xs)
      rcases Option.isSome_iff_exists.1 hsome with ⟨a, ha⟩
      rw [ha]
      obtain ⟨hmem, hle⟩ := List.min?_eq_some_iff'.1 ha
      simp only [Option.getD_some]
      exact ⟨hmem, hle⟩
  · rw [if_neg h]
    rcases l with _ | ⟨x, xs⟩
    · exact absurd rfl hne
    · rcases xs with _ | ⟨y, ys⟩
      · simp
      · exfalso
        apply h
        simp only [List.length_cons]
        omega

/-! ### Upsert lemmas for user ratings -/

theorem upsert_update_keys (uid cid v : Nat) (r : UserBookRatingRow) :
    ((if r.user_id == uid && r.completed_id == cid then
        { r with rating := v } else r) : UserBookRatingRow).user_id = r.user_id ∧
    ((if r.user_id == uid && r.completed_id == cid then
        { r with rating := v } else r) : UserBookRatingRow).completed_id = r.completed_id := by
  split <;> exact ⟨rfl, rfl⟩

theorem currentRating_upsert_same (tbl : List UserBookRatingRow) (uid cid v : Nat) :
    currentRating (upsert_rating tbl uid cid v) uid cid = some v := by
  unfold upsert_rating currentRating
  by_cases h : tbl.any (fun r => r.user_id == uid && r.completed_id == cid)
  · rw [if_pos h]
    induction tbl with
    | nil => simp at h
    | cons x tl ih =>
      by_cases hx : (x.user_id == uid && x.completed_id == cid) = true
      · simp only [List.map_cons, if_pos hx]
        rw [List.find?_cons_of_pos]
        · rfl
        · simpa using hx
      · simp only [List.map_cons, if_neg hx]
        rw [List.find?_cons_of_neg _ (by simpa using hx)]
        apply ih
        rw [List.any_cons] at h
        simp only [Bool.or_eq_true] at h
        rcases h with h | h
        · exact absurd h hx
        · exact h
  · rw [if_neg h]
    rw [List.find?_append]
    have h1 : tbl.find? (fun r => r.user_id == uid && r.completed_id == cid) = none := by
      rw [List.find?_eq_none]
      intro x hx
      intro hpx
      exact h (List.any_eq_true.2 ⟨x, hx, hpx⟩)
    rw [h1]
    simp


theorem find?_map_update_other (uid cid v uid2 cid2 : Nat)
    (hne : ¬(uid2 = uid ∧ cid2 = cid)) :
    ∀ tl : List UserBookRatingRow,
      (tl.map (fun r => if r.user_id == uid && r.completed_id == cid then
          { r with rating := v } else r)).find?
        (fun r => r.user_id == uid2 && r.completed_id == cid2) =
      tl.find? (fun r => r.user_id == uid2 && r.completed_id == cid2)
  | [] => rfl
  | x :: tl => by
    simp only [List.map_cons, List.find?_cons]
    have hkeys := upsert_update_keys uid cid v x
    rw [hkeys.1, hkeys.2]
    by_cases hq : (x.user_id == uid2 && x.completed_id == cid2) = true
    · rw [hq]
      have hqids : x.user_id = uid2 ∧ x.completed_id = cid2 := by simpa using hq
      have hxp : (x.user_id == uid && x.completed_id == cid) = false := by
        apply Bool.eq_false_iff.2
        intro hcontra
        have hc : x.user_id = uid ∧ x.completed_id = cid := by simpa using hcontra
        exact hne ⟨hqids.1 ▸ hc.1, hqids.2 ▸ hc.2⟩
      simp [hxp]
    · have hq' : (x.user_id == uid2 && x.completed_id == cid2) = false :=
        Bool.eq_false_iff.2 hq
      rw [hq']
      exact find?_map_update_other uid cid v uid2 cid2 hne tl

theorem currentRating_upsert_other (tbl : List UserBookRatingRow) (uid cid v uid2 cid2 : Nat)
    (hne : ¬(uid2 = uid ∧ cid2 = cid)) :
    currentRating (upsert_rating tbl uid cid v) uid2 cid2 = currentRating tbl uid2 cid2 := by
  unfold upsert_rating currentRating
  by_cases h : tbl.any (fun r => r.user_id == uid && r.completed_id == cid)
  · rw [if_pos h, find?_map_update_other uid cid v uid2 cid2 hne tbl]
  · rw [if_neg h, List.find?_append]
    have hnew : List.find? (fun r => r.user_id == uid2 && r.completed_id == cid2)
        [({ user_id := uid, completed_id := cid, rating := v } : UserBookRatingRow)] = none := by
      rw [List.find?_eq_none]
      intro x hx
      rcases List.mem_singleton.1 hx with rfl
      intro hp
      have hc : uid = uid2 ∧ cid = cid2 := by simpa using hp
      exact hne ⟨hc.1.symm, hc.2.symm⟩
    rw [hnew, Option.or_none]

theorem atMostOnePerKey_upsert (tbl : List UserBookRatingRow) (uid cid v : Nat)
    (h : atMostOnePerKey tbl) : atMostOnePerKey (upsert_rating tbl uid cid v) := by
  unfold upsert_rating atMostOnePerKey
  by_cases ha : tbl.any (fun r => r.user_id == uid && r.completed_id == cid)
  · rw [if_pos ha, List.pairwise_map]
    apply h.imp
    intro a b hab
    rcases upsert_update_keys uid cid v a with ⟨ha1, ha2⟩
    rcases upsert_update_keys uid cid v b with ⟨hb1, hb2⟩
    rw [ha1, ha2, hb1, hb2]
    exact hab
  · rw [if_neg ha, List.pairwise_append]
    refine ⟨h, List.pairwise_singleton _ _, ?_⟩
    intro a hamem b hbmem
    rcases List.mem_singleton.1 hbmem with rfl
    intro hab
    apply ha
    apply List.any_eq_true.2
    exact ⟨a, hamem, by simp [hab.1, hab.2]⟩

/-! ### Processed-flag monotonicity machinery -/

theorem forall2_take_map {α : Type} {m : α → α → Prop} (f : α → α)
    (hf : ∀ x, m x (f x)) (l : List α) :
    List.Forall₂ m l ((l.map f).take l.length) := by
  rw [List.take_of_length_le (by simp)]
  exact forall2_map_self f hf l

theorem forall2_take_refl {α : Type} {m : α → α → Prop} (hm : ∀ x, m x x) (l : List α) :
    List.Forall₂ m l (l.take l.length) := by
  rw [List.take_length]
  exact List.forall₂_same.2 fun x _ => hm x

theorem forall2_take_append_self {α : Type} {m : α → α → Prop} (hm : ∀ x, m x x)
    (l t : List α) : List.Forall₂ m l ((l ++ t).take l.length) := by
  rw [List.take_left]
  exact List.forall₂_same.2 fun x _ => hm x

theorem forall2_take_trans {α : Type} {m : α → α → Prop}
    (ht : ∀ a b c, m a b → m b c → m a c) {a b c : List α}
    (h1 : List.Forall₂ m a (b.take a.length))
    (h2 : List.Forall₂ m b (c.take b.length)) :
    List.Forall₂ m a (c.take a.length) := by
  have hlen1 : a.length ≤ b.length := by
    have hx := h1.length_eq
    simp only [List.length_take] at hx
    omega
  have h2' : List.Forall₂ m (b.take a.length) ((c.take b.length).take a.length) :=
    List.forall₂_take a.length h2
  rw [List.take_take, Nat.min_eq_left hlen1] at h2'
  exact forall2_comp ht h1 h2'

theorem pollsMonotone_refl (db : Db) : pollsMonotone db db :=
  ⟨forall2_take_refl (fun _ h => h) _, forall2_take_refl (fun _ h => h) _⟩

theorem pollsMonotone_trans {db1 db2 db3 : Db}
    (h1 : pollsMonotone db1 db2) (h2 : pollsMonotone db2 db3) : pollsMonotone db1 db3 :=
  ⟨forall2_take_trans (fun _ _ _ p q h => q (p h)) h1.1 h2.1,
   forall2_take_trans (fun _ _ _ p q h => q (p h)) h1.2 h2.2⟩

theorem pollsMonotone_of_tables_eq {db db' : Db}
    (h1 : db'.rating_polls = db.rating_polls)
    (h2 : db'.selection_polls = db.selection_polls) : pollsMonotone db db' := by
  unfold pollsMonotone
  rw [h1, h2]
  exact ⟨forall2_take_refl (fun _ h => h) _, forall2_take_refl (fun _ h => h) _⟩

theorem pollsMonotone_markRating (db : Db) (mid : Nat) :
    pollsMonotone db (markRatingProcessed db mid) := by
  refine ⟨?_, forall2_take_refl (fun _ h => h) _⟩
  apply forall2_take_map
  intro x hx
  split
  · rfl
  · exact hx

theorem pollsMonotone_markSelection (db : Db) (mid : Nat) :
    pollsMonotone db (markSelectionProcessed db mid) := by
  refine ⟨forall2_take_refl (fun _ h => h) _, ?_⟩
  apply forall2_take_map
  intro x hx
  split
  · rfl
  · exact hx

theorem pollsMonotone_close (db : Db) (mid : Nat) :
    pollsMonotone db (closeSelectionClearWinner db mid) := by
  refine ⟨forall2_take_refl (fun _ h => h) _, ?_⟩
  apply forall2_take_map
  intro x hx
  split
  · rfl
  · exact hx

theorem pollsMonotone_setWinner (db : Db) (mid : Nat) (v : String) :
    pollsMonotone db (setSelectionWinner db mid v) := by
  refine ⟨forall2_take_refl (fun _ h => h) _, ?_⟩
  apply forall2_take_map
  intro x hx
  split
  · rfl
  · exact hx

theorem pollsMonotone_cleanup (db : Db) (server now : Nat) :
    pollsMonotone db (cleanup_stale_selection_polls db server now) := by
  refine ⟨forall2_take_refl (fun _ h => h) _, ?_⟩
  apply forall2_take_map
  intro x hx
  split
  · rfl
  · exact hx

theorem pollsMonotone_cancel (db : Db) (server : Nat) :
    pollsMonotone db (cancel_open_selection_polls db server) := by
  refine ⟨forall2_take_refl (fun _ h => h) _, ?_⟩
  apply forall2_take_map
  intro x hx
  split
  · rfl
  · exact hx

theorem pollsMonotone_applySelection (db : Db) (mid ch : Nat) (sp : SelectionPollRow)
    (v : String) (t : List Effect) :
    pollsMonotone db (applySelection db mid ch sp v t).1 := by
  have htx : pollsMonotone db
      (select_book_from_queue_tx db sp.server_id v
        ((db.server_bot_config.find? (fun c => c.server_id == sp.server_id)).bind
          (fun c => c.announcement_channel_id)) sp.deadline).1 :=
    pollsMonotone_of_tables_eq (select_tx_rating_polls _ _ _ _ _)
      (select_tx_selection_polls _ _ _ _ _)
  unfold applySelection
  dsimp only
  split
  · exact pollsMonotone_trans htx (pollsMonotone_setWinner _ _ _)
  · exact pollsMonotone_trans htx (pollsMonotone_markSelection _ _)

theorem pollsMonotone_process (env : Env) (db : Db) (ch mid : Nat) (poll : PlatformPoll) :
    pollsMonotone db (process_poll_completion env db ch mid poll).1 := by
  unfold process_poll_completion
  split
  · exact pollsMonotone_markRating _ _
  · split
    · split
      · dsimp only
        split
        · exact pollsMonotone_markSelection _ _
        · split
          · exact pollsMonotone_markSelection _ _
          · split
            · split
              · exact pollsMonotone_applySelection _ _ _ _ _ _
              · exact pollsMonotone_markSelection _ _
            · exact pollsMonotone_applySelection _ _ _ _ _ _
      · exact pollsMonotone_refl _
    · exact pollsMonotone_refl _

theorem pollsMonotone_handle_missing (db : Db) (ch mid : Nat) :
    pollsMonotone db (handle_missing_poll_message db ch mid).1 := by
  unfold handle_missing_poll_message
  split
  · split
    · exact pollsMonotone_refl _
    · exact pollsMonotone_markRating _ _
  · split
    · split
      · exact pollsMonotone_refl _
      · exact pollsMonotone_close _ _
    · exact pollsMonotone_refl _

theorem pollsMonotone_check (env : Env) (fetched : FetchResult) (db : Db) (ch mid : Nat) :
    pollsMonotone db (check_poll_for_completion env fetched db ch mid).1 := by
  unfold check_poll_for_completion
  split
  · split
    · split
      · split
        · exact pollsMonotone_process _ _ _ _ _
        · exact pollsMonotone_refl _
      · exact pollsMonotone_refl _
    · exact pollsMonotone_refl _
  · exact pollsMonotone_handle_missing _ _ _

theorem foldl_db_proj {β : Type} (g : Db → β → Db × List Effect) :
    ∀ (l : List β) (d : Db) (es : List Effect),
      (l.foldl (fun acc p => ((g acc.1 p).1, acc.2 ++ (g acc.1 p).2)) (d, es)).1 =
      l.foldl (fun d p => (g d p).1) d
  | [], d, es => rfl
  | x :: l, d, es => foldl_db_proj g l (g d x).1 (es ++ (g d x).2)

theorem pollsMonotone_foldl {β : Type} (g : Db → β → Db)
    (hg : ∀ d x, pollsMonotone d (g d x)) :
    ∀ (l : List β) (d : Db), pollsMonotone d (l.foldl g d)
  | [], d => pollsMonotone_refl d
  | x :: l, d => pollsMonotone_trans (hg d x) (pollsMonotone_foldl g hg l (g d x))

theorem check_expired_polls_db (env : Env) (fetchOf : Nat → FetchResult) (db : Db)
    (now : Nat) :
    (check_expired_polls env fetchOf db now).1 =
      (expired_unprocessed_selection_polls db now).foldl
        (fun d p => (check_poll_for_completion env (fetchOf p.message_id) d
          p.channel_id p.message_id).1) db := by
  unfold check_expired_polls
  dsimp only
  exact foldl_db_proj
    (fun d p => check_poll_for_completion env (fetchOf p.message_id) d
      p.channel_id p.message_id)
    (expired_unprocessed_selection_polls db now) db []

theorem pollsMonotone_sweep (env : Env) (fetchOf : Nat → FetchResult) (db : Db)
    (now : Nat) : pollsMonotone db (check_expired_polls env fetchOf db now).1 := by
  rw [check_expired_polls_db]
  exact pollsMonotone_foldl _ (fun d p => pollsMonotone_check _ _ _ _ _) _ db

theorem pollsMonotone_active_row (db : Db) (server now : Nat) :
    pollsMonotone db (active_selection_poll_row db server now).1 := by
  unfold active_selection_poll_row
  exact pollsMonotone_cleanup _ _ _

theorem pollsMonotone_guard (db : Db) (server now : Nat) (choice : GuardChoice) :
    pollsMonotone db (interactive_poll_guard db server now choice).1 := by
  unfold interactive_poll_guard
  dsimp only
  split
  · exact pollsMonotone_active_row _ _ _
  · split
    · exact pollsMonotone_trans (pollsMonotone_active_row db server now)
        (pollsMonotone_cancel _ _)
    · exact pollsMonotone_active_row _ _ _
    · exact pollsMonotone_active_row _ _ _

theorem pollsMonotone_vote_add (fetched : FetchResult) (db : Db) (mid uid aid : Nat)
    (db' : Db) (es : List Effect)
    (h : process_rating_vote_add fetched db mid uid aid = Except.ok (db', es)) :
    pollsMonotone db db' := by
  unfold process_rating_vote_add at h
  revert h
  split
  · intro h
    injection h with h
    injection h with h1 h2
    rw [← h1]
    exact pollsMonotone_refl _
  · split
    · intro h
      cases h
    · intro h
      injection h with h
      injection h with h1 h2
      rw [← h1]
      exact pollsMonotone_refl _
    · intro h
      injection h with h
      injection h with h1 h2
      rw [← h1]
      exact pollsMonotone_of_tables_eq rfl rfl

theorem pollsMonotone_vote_remove (db : Db) (mid uid : Nat) :
    pollsMonotone db (process_rating_vote_remove db mid uid).1 := by
  unfold process_rating_vote_remove
  split
  · exact pollsMonotone_refl _
  · exact pollsMonotone_of_tables_eq rfl rfl

theorem pollsMonotone_insert_rating (db : Db) (row : RatingPollRow) :
    pollsMonotone db (insert_rating_poll db row) := by
  unfold insert_rating_poll
  split
  · exact pollsMonotone_refl _
  · exact ⟨forall2_take_append_self (fun _ h => h) _ _,
      forall2_take_refl (fun _ h => h) _⟩

theorem pollsMonotone_create_selection (db : Db) (mid ch server : Nat)
    (ids : List String) (ex : Nat) (dl : Option Nat) :
    pollsMonotone db (create_selection_poll db mid ch server ids ex dl) := by
  unfold create_selection_poll
  split
  · exact pollsMonotone_refl _
  · exact ⟨forall2_take_refl (fun _ h => h) _,
      forall2_take_append_self (fun _ h => h) _ _⟩

theorem pollsMonotone_deadline_row (env : Env) (db : Db) (now new_mid : Nat)
    (row : CurrentBookRow) (cfg : BotConfigRow) :
    pollsMonotone db (process_deadline_row env db now new_mid row cfg).1 := by
  have hfin : pollsMonotone db (finish_current_book_tx db row.server_id).1 :=
    pollsMonotone_of_tables_eq (finish_tx_rating_polls _ _) (finish_tx_selection_polls _ _)
  unfold process_deadline_row
  dsimp only
  split
  · exact hfin
  · split
    · exact hfin
    · split
      · exact pollsMonotone_trans hfin (pollsMonotone_insert_rating _ _)
      · exact hfin

theorem process_deadlines_db (env : Env) (db : Db) (now : Nat) (midOf : Nat → Nat) :
    (process_deadlines env db now midOf).1 =
      (deadline_rows db now).foldl
        (fun d pr => (process_deadline_row env d now (midOf pr.1.server_id) pr.1 pr.2).1) db := by
  unfold process_deadlines
  dsimp only
  exact foldl_db_proj
    (fun d pr => process_deadline_row env d now (midOf pr.1.server_id) pr.1 pr.2)
    (deadline_rows db now) db []

theorem pollsMonotone_deadlines (env : Env) (db : Db) (now : Nat) (midOf : Nat → Nat) :
    pollsMonotone db (process_deadlines env db now midOf).1 := by
  rw [process_deadlines_db]
  exact pollsMonotone_foldl _ (fun d pr => pollsMonotone_deadline_row _ _ _ _ _ _) _ db

/-! ### Row-evolution machinery for the sweeper -/

theorem selectionEvolves_refl (s : SelectionPollRow) : selectionEvolves s s :=
  ⟨rfl, rfl, rfl, rfl, rfl, rfl, fun h => h⟩

theorem selectionEvolves_trans {a b c : SelectionPollRow}
    (h1 : selectionEvolves a b) (h2 : selectionEvolves b c) : selectionEvolves a c := by
  obtain ⟨m1, c1, s1, b1, d1, e1, p1⟩ := h1
  obtain ⟨m2, c2, s2, b2, d2, e2, p2⟩ := h2
  exact ⟨m2.trans m1, c2.trans c1, s2.trans s1, b2.trans b1, d2.trans d1, e2.trans e1,
    fun h => p2 (p1 h)⟩

theorem forall2_selectionEvolves_refl (l : List SelectionPollRow) :
    List.Forall₂ selectionEvolves l l :=
  List.forall₂_same.2 fun s _ => selectionEvolves_refl s

theorem evolves_mark_pointwise (mid : Nat) (s : SelectionPollRow) :
    selectionEvolves s (if s.message_id == mid then { s with processed := true } else s) := by
  split
  · exact ⟨rfl, rfl, rfl, rfl, rfl, rfl, fun _ => rfl⟩
  · exact selectionEvolves_refl s

theorem evolves_close_pointwise (mid : Nat) (s : SelectionPollRow) :
    selectionEvolves s (if s.message_id == mid then
      { s with processed := true, selected_volume_id := none } else s) := by
  split
  · exact ⟨rfl, rfl, rfl, rfl, rfl, rfl, fun _ => rfl⟩
  · exact selectionEvolves_refl s

theorem evolves_setWinner_pointwise (mid : Nat) (v : String) (s : SelectionPollRow) :
    selectionEvolves s (if s.message_id == mid then
      { s with processed := true, selected_volume_id := some v } else s) := by
  split
  · exact ⟨rfl, rfl, rfl, rfl, rfl, rfl, fun _ => rfl⟩
  · exact selectionEvolves_refl s

theorem markSelection_evolves (db : Db) (mid : Nat) :
    List.Forall₂ selectionEvolves db.selection_polls
      (markSelectionProcessed db mid).selection_polls :=
  forall2_map_self _ (evolves_mark_pointwise mid) db.selection_polls

theorem close_evolves (db : Db) (mid : Nat) :
    List.Forall₂ selectionEvolves db.selection_polls
      (closeSelectionClearWinner db mid).selection_polls :=
  forall2_map_self _ (evolves_close_pointwise mid) db.selection_polls

theorem setWinner_evolves (db : Db) (mid : Nat) (v : String) :
    List.Forall₂ selectionEvolves db.selection_polls
      (setSelectionWinner db mid v).selection_polls :=
  forall2_map_self _ (evolves_setWinner_pointwise mid v) db.selection_polls

theorem applySelection_evolves (db : Db) (mid ch : Nat) (sp : SelectionPollRow)
    (v : String) (t : List Effect) :
    List.Forall₂ selectionEvolves db.selection_polls
      (applySelection db mid ch sp v t).1.selection_polls := by
  unfold applySelection
  dsimp only
  split
  · have h := setWinner_evolves
      (select_book_from_queue_tx db sp.server_id v
        ((db.server_bot_config.find? (fun c => c.server_id == sp.server_id)).bind
          (fun c => c.announcement_channel_id)) sp.deadline).1 mid v
    rwa [select_tx_selection_polls] at h
  · have h := markSelection_evolves
      (select_book_from_queue_tx db sp.server_id v
        ((db.server_bot_config.find? (fun c => c.server_id == sp.server_id)).bind
          (fun c => c.announcement_channel_id)) sp.deadline).1 mid
    rwa [select_tx_selection_polls] at h

theorem process_selection_evolves (env : Env) (db : Db) (ch m : Nat) (poll : PlatformPoll)
    (h1 : findUnprocessedRatingPoll db m = none) :
    List.Forall₂ selectionEvolves db.selection_polls
      (process_poll_completion env db ch m poll).1.selection_polls := by
  unfold process_poll_completion
  rw [h1]
  dsimp only
  split
  · split
    · split
      · exact markSelection_evolves _ _
      · split
        · exact markSelection_evolves _ _
        · split
          · split
            · exact applySelection_evolves _ _ _ _ _ _
            · exact markSelection_evolves _ _
          · exact applySelection_evolves _ _ _ _ _ _
    · exact forall2_selectionEvolves_refl _
  · exact forall2_selectionEvolves_refl _

theorem evolves_mids_eq :
    ∀ {l l' : List SelectionPollRow}, List.Forall₂ selectionEvolves l l' →
      l'.map (fun s => s.message_id) = l.map (fun s => s.message_id)
  | [], [], List.Forall₂.nil => rfl
  | _ :: _, _ :: _, List.Forall₂.cons h₁ h₂ => by
    simp only [List.map_cons]
    exact congrArg₂ (· :: ·) h₁.1 (evolves_mids_eq h₂)

theorem processed_of_findUnprocessed_none (db : Db) (m : Nat)
    (h : findUnprocessedSelectionPoll db m = none) :
    ∀ s ∈ db.selection_polls, s.message_id = m → s.processed = true := by
  unfold findUnprocessedSelectionPoll at h
  rw [List.find?_eq_none] at h
  intro s hs hm
  by_contra hp
  have hp' : s.processed = false := Bool.eq_false_iff.2 hp
  exact h s hs (by simp [hm, hp'])

theorem close_processes_mid (db : Db) (m : Nat) :
    ∀ s' ∈ (closeSelectionClearWinner db m).selection_polls,
      s'.message_id = m → s'.processed = true := by
  intro s' hs'
  unfold closeSelectionClearWinner at hs'
  dsimp only at hs'
  rcases List.mem_map.1 hs' with ⟨y, hy, rfl⟩
  split
  · intro _
    rfl
  · intro hm
    rename_i hcond
    exact absurd (by simp [hm] : (y.message_id == m) = true) hcond

theorem nodup_unique_mid (l : List SelectionPollRow) (m : Nat)
    (hn : (l.map (fun s => s.message_id)).Nodup) (sp : SelectionPollRow)
    (h : l.find? (fun s => s.message_id == m) = some sp) :
    ∀ s' ∈ l, s'.message_id = m → s' = sp := by
  rcases List.find?_eq_some.1 h with ⟨hpsp, as, bs, rfl, has⟩
  have hspm : sp.message_id = m := by simpa using hpsp
  intro s' hs' hm
  rcases List.mem_append.1 hs' with hs' | hs'
  · exact absurd (by simp [hm] : (s'.message_id == m) = true) (by simpa using has s' hs')
  · rcases List.mem_cons.1 hs' with rfl | hs'
    · rfl
    · exfalso
      rw [List.map_append, List.map_cons] at hn
      have hmid : m ∈ bs.map (fun s => s.message_id) :=
        List.mem_map.2 ⟨s', hs', hm⟩
      have := (List.nodup_append.1 hn).2.1
      rw [List.nodup_cons] at this
      exact this.1 (hspm ▸ hmid)

theorem handle_missing_spec (db : Db) (ch m : Nat)
    (hr : ∀ r ∈ db.rating_polls, r.message_id ≠ m)
    (hn : (db.selection_polls.map (fun s => s.message_id)).Nodup) :
    (handle_missing_poll_message db ch m).1.rating_polls = db.rating_polls ∧
    List.Forall₂ selectionEvolves db.selection_polls
      (handle_missing_poll_message db ch m).1.selection_polls ∧
    ∀ s' ∈ (handle_missing_poll_message db ch m).1.selection_polls,
      s'.message_id = m → s'.processed = true := by
  have hfr : db.rating_polls.find? (fun r => r.message_id == m) = none := by
    rw [List.find?_eq_none]
    intro x hx
    simpa using hr x hx
  unfold handle_missing_poll_message
  rw [hfr]
  dsimp only
  split
  · rename_i sp heq
    split
    · rename_i hproc
      refine ⟨rfl, forall2_selectionEvolves_refl _, ?_⟩
      intro s' hs' hm
      have := nodup_unique_mid db.selection_polls m hn sp heq s' hs' hm
      rw [this]
      exact hproc
    · exact ⟨rfl, close_evolves db m, close_processes_mid db m⟩
  · rename_i heq
    refine ⟨rfl, forall2_selectionEvolves_refl _, ?_⟩
    intro s' hs' hm
    rw [List.find?_eq_none] at heq
    exact absurd (by simp [hm] : (s'.message_id == m) = true) (by simpa using heq s' hs')

theorem sweep_call_spec (env : Env) (fetched : FetchResult) (db : Db) (ch m : Nat)
    (hf : reports_finalized fetched = true)
    (hr : ∀ r ∈ db.rating_polls, r.message_id ≠ m)
    (hn : (db.selection_polls.map (fun s => s.message_id)).Nodup) :
    (check_poll_for_completion env fetched db ch m).1.rating_polls = db.rating_polls ∧
    List.Forall₂ selectionEvolves db.selection_polls
      (check_poll_for_completion env fetched db ch m).1.selection_polls ∧
    ∀ s' ∈ (check_poll_for_completion env fetched db ch m).1.selection_polls,
      s'.message_id = m → s'.processed = true := by
  have h1 : findUnprocessedRatingPoll db m = none := by
    unfold findUnprocessedRatingPoll
    rw [List.find?_eq_none]
    intro x hx
    simp [hr x hx]
  rcases fetched with msg | e
  · unfold reports_finalized at hf
    dsimp only at hf
    rcases hpoll : msg.poll with _ | p
    · rw [hpoll] at hf
      simp at hf
    · rw [hpoll] at hf
      dsimp only at hf
      rcases hres : p.results with _ | r
      · rw [hres] at hf
        simp at hf
      · rw [hres] at hf
        dsimp only at hf
        unfold check_poll_for_completion
        dsimp only
        rw [hpoll]
        dsimp only
        rw [hres]
        dsimp only
        rw [if_pos hf]
        rcases h2 : findUnprocessedSelectionPoll db m with _ | sp
        · rw [process_abort env db ch m p h1 h2]
          exact ⟨rfl, forall2_selectionEvolves_refl _,
            processed_of_findUnprocessed_none db m h2⟩
        · refine ⟨process_selection_rating_polls env db ch m p sp r h1 h2 hres, ?_, ?_⟩
          · exact process_selection_evolves env db ch m p h1
          · exact processed_of_findUnprocessed_none _ m
              (process_selection_closes env db ch m p sp r h1 h2 hres)
  · unfold check_poll_for_completion
    exact handle_missing_spec db ch m hr hn

theorem sweep_aux (env : Env) (fetchOf : Nat → FetchResult)
    (hfall : ∀ m, reports_finalized (fetchOf m) = true) :
    ∀ (ps : List SelectionPollRow) (db : Db),
      (∀ p ∈ ps, ∀ r ∈ db.rating_polls, r.message_id ≠ p.message_id) →
      (db.selection_polls.map (fun s => s.message_id)).Nodup →
      (ps.foldl (fun d p => (check_poll_for_completion env (fetchOf p.message_id) d
          p.channel_id p.message_id).1) db).rating_polls = db.rating_polls ∧
      List.Forall₂ selectionEvolves db.selection_polls
        (ps.foldl (fun d p => (check_poll_for_completion env (fetchOf p.message_id) d
          p.channel_id p.message_id).1) db).selection_polls ∧
      ∀ s' ∈ (ps.foldl (fun d p => (check_poll_for_completion env (fetchOf p.message_id) d
          p.channel_id p.message_id).1) db).selection_polls,
        s'.message_id ∈ ps.map (fun p => p.message_id) → s'.processed = true
  | [], db => fun hr hn => ⟨rfl, forall2_selectionEvolves_refl _, by simp⟩
  | p :: ps, db => fun hr hn => by
    simp only [List.foldl_cons]
    have hcall := sweep_call_spec env (fetchOf p.message_id) db p.channel_id p.message_id
      (hfall p.message_id) (fun r hrr => hr p (by simp) r hrr) hn
    have hr1 : ∀ q ∈ ps, ∀ r ∈ (check_poll_for_completion env (fetchOf p.message_id) db
        p.channel_id p.message_id).1.rating_polls, r.message_id ≠ q.message_id := by
      intro q hq r hrr
      rw [hcall.1] at hrr
      exact hr q (by simp [hq]) r hrr
    have hn1 : ((check_poll_for_completion env (fetchOf p.message_id) db
        p.channel_id p.message_id).1.selection_polls.map (fun s => s.message_id)).Nodup := by
      rw [evolves_mids_eq hcall.2.1]
      exact hn
    have ih := sweep_aux env fetchOf hfall ps
      (check_poll_for_completion env (fetchOf p.message_id) db p.channel_id p.message_id).1
      hr1 hn1
    refine ⟨?_, ?_, ?_⟩
    · rw [ih.1, hcall.1]
    · exact @forall2_comp _ selectionEvolves
        (fun a b c h1 h2 => selectionEvolves_trans h1 h2) _ _ _ hcall.2.1 ih.2.1
    · intro s' hs' hmem
      simp only [List.map_cons, List.mem_cons] at hmem
      rcases hmem with hmem | hmem
      · rcases forall2_mem_right ih.2.1 hs' with ⟨s1, hs1, hev⟩
        have hs1m : s1.message_id = p.message_id := hev.1.symm.trans hmem
        have hs1p : s1.processed = true := hcall.2.2 s1 hs1 hs1m
        exact hev.2.2.2.2.2.2 hs1p
      · exact ih.2.2 s' hs' hmem

/-! ### Claim theorems -/

/-- C1 counterexample: the resolution entry point does not begin with a
single conditional update gating all side effects.  Its first step is a
conditional read, and the processed flag is only written by a later
separate update, so two triggers for the same rating poll interleaved at
the await points (event path and sweep path) both pass the read and both
send the completion summary: side effects are applied twice, refuting
"concurrent resolution applies side effects at most once". -/
theorem c1_counterexample_interleaved_double_summary :
    (run_interleaving 1 [true, false, true, true, true, true, false, false, false, false]
      { t1 := RPhase.start, t2 := RPhase.start,
        db := ⟨[⟨1, 10, 5, 7, 50, false⟩], [], [],
          [⟨7, 5, "vol-a", some 4, some 3⟩], [], [], [], [], 8⟩,
        trace := [] }).trace.count (Effect.ratingSummary 10 7) = 2 := by decide

/-- C1 (amended): the common first step of any resolution is a conditional
read returning the poll row only where not already processed; an empty
read aborts immediately with no state change and no effects.  Sequentially
repeated triggers therefore apply side effects at most once: a second
invocation after one completes is a no-op.  But because the processed mark
is a separate later update, concurrently interleaved triggers can both
pass the read and each apply the side effects: the completion summary of a
rating poll can be sent twice. -/
theorem c1_amended_conditional_read_and_race :
    (∀ (env : Env) (db : Db) (ch mid : Nat) (poll : PlatformPoll),
      findUnprocessedRatingPoll db mid = none →
      findUnprocessedSelectionPoll db mid = none →
      process_poll_completion env db ch mid poll = (db, [])) ∧
    (∀ (env : Env) (db : Db) (ch mid : Nat) (poll : PlatformPoll),
      (∀ r ∈ db.rating_polls, ∀ s ∈ db.selection_polls, r.message_id ≠ s.message_id) →
      process_poll_completion env (process_poll_completion env db ch mid poll).1 ch mid poll =
        ((process_poll_completion env db ch mid poll).1, [])) ∧
    (run_interleaving 21 [true, false, true, true, true, true, false, false, false, false]
      { t1 := RPhase.start, t2 := RPhase.start,
        db := ⟨[⟨21, 14, 6, 9, 70, false⟩], [], [],
          [⟨9, 6, "vol-b", some 3, some 2⟩], [], [], [], [], 10⟩,
        trace := [] }).trace.count (Effect.ratingSummary 14 9) = 2 :=
  ⟨process_abort, process_twice_noop, by decide⟩

/-- C1 witness: the abort component of the amended claim applied to a
concrete database without the poll. -/
theorem c1_amended_witness :
    process_poll_completion env0 emptyDb 3 1 { answers := [], results := none } =
      (emptyDb, []) :=
  c1_amended_conditional_read_and_race.1 env0 emptyDb 3 1
    { answers := [], results := none } rfl rfl

/-- C2: for a poll whose processed flag is already true (every rating or
selection row carrying this message id is processed), invoking the
resolution entry point again is a no-op: the database is unchanged (no
poll row, rating aggregate, queue or current-item changes) and no effect
is emitted (no message, no selection transaction). -/
theorem c2_processed_poll_reresolution_noop (env : Env) (db : Db) (ch mid : Nat)
    (poll : PlatformPoll)
    (hr : ∀ r ∈ db.rating_polls, r.message_id = mid → r.processed = true)
    (hs : ∀ s ∈ db.selection_polls, s.message_id = mid → s.processed = true) :
    process_poll_completion env db ch mid poll = (db, []) :=
  process_abort env db ch mid poll
    (findUnprocessedRatingPoll_eq_none db mid hr)
    (findUnprocessedSelectionPoll_eq_none db mid hs)

/-- C2 witness: re-triggering resolution of an already processed rating
poll and an already processed selection poll changes nothing. -/
theorem c2_witness :
    process_poll_completion env0
      ⟨[⟨1, 10, 5, 7, 50, true⟩], [⟨2, 11, 5, ["a"], none, 60, true, some "a"⟩],
        [], [], [], [], [], [], 0⟩ 10 1
      { answers := [100], results := some ⟨true, [⟨100, 3⟩]⟩ } =
      (⟨[⟨1, 10, 5, 7, 50, true⟩], [⟨2, 11, 5, ["a"], none, 60, true, some "a"⟩],
        [], [], [], [], [], [], 0⟩, []) :=
  c2_processed_poll_reresolution_noop env0 _ 10 1 _ (by decide) (by decide)

/-- C3: for a finalized selection poll whose maximum reported per-answer
count is positive, the tally loop and tie-break of resolution select the
answer index with the strictly highest count, and when several indices tie
for the maximum the lowest such index wins: the chosen index attains the
maximum count and is less than or equal to the index of every tied
maximum; in particular for tallies [2,2,1] the winner is index 0, never
index 1. -/
theorem c3_winner_highest_count_lowest_tied_index
    (answers : List Nat) (counts : List PollAnswerCount)
    (hfind : ∀ ac ∈ counts, (answers.findIdx? (fun a => a == ac.answer_id)).isSome)
    (hpos : 0 < maxReportedCount counts) :
    (∃ ac ∈ counts, answers.findIdx? (fun a => a == ac.answer_id) =
        some (chooseWinningIndex (tallyAnswers answers counts).2) ∧
        ac.count = maxReportedCount counts) ∧
    (∀ ac ∈ counts, ∀ i : Nat,
        answers.findIdx? (fun a => a == ac.answer_id) = some i →
        ac.count = maxReportedCount counts →
        chooseWinningIndex (tallyAnswers answers counts).2 ≤ i) ∧
    chooseWinningIndex (tallyAnswers [100, 200, 300]
      [⟨100, 2⟩, ⟨200, 2⟩, ⟨300, 1⟩]).2 = 0 := by
  obtain ⟨hm, hl⟩ := tallyAnswers_spec answers counts hfind
  have hne : (tallyAnswers answers counts).2 ≠ [] := by
    rcases maxReportedCount_attained counts hpos with ⟨ac, hac, hce⟩
    obtain ⟨i0, hi0⟩ := Option.isSome_iff_exists.1 (hfind ac hac)
    have hmem : i0 ∈ (tallyAnswers answers counts).2 :=
      (hl i0).2 ⟨ac, hac, hi0, hce, by rw [hce]; exact hpos⟩
    intro hemp
    rw [hemp] at hmem
    cases hmem
  obtain ⟨hwmem, hwmin⟩ := chooseWinningIndex_min _ hne
  refine ⟨?_, ?_, by decide⟩
  · rcases (hl _).1 hwmem with ⟨ac, hac, hfi, hcnt, _⟩
    exact ⟨ac, hac, hfi, hcnt⟩
  · intro ac hac i hfi hcnt
    have hipos : 0 < ac.count := by rw [hcnt]; exact hpos
    exact hwmin i ((hl i).2 ⟨ac, hac, hfi, hcnt, hipos⟩)

/-- C3 witness: the tie [2,2,1] at a concrete poll. -/
theorem c3_witness :
    ∃ ac ∈ [(⟨100, 2⟩ : PollAnswerCount), ⟨200, 2⟩, ⟨300, 1⟩],
      [100, 200, 300].findIdx? (fun a => a == ac.answer_id) =
        some (chooseWinningIndex (tallyAnswers [100, 200, 300]
          [⟨100, 2⟩, ⟨200, 2⟩, ⟨300, 1⟩]).2) ∧
      ac.count = maxReportedCount [⟨100, 2⟩, ⟨200, 2⟩, ⟨300, 1⟩] :=
  (c3_winner_highest_count_lowest_tied_index [100, 200, 300]
    [⟨100, 2⟩, ⟨200, 2⟩, ⟨300, 1⟩] (by decide) (by decide)).1

/-- C4: for a finalized selection poll whose maximum reported per-answer
count is zero, resolution marks the poll processed, leaves
selected_volume_id NULL, emits only the no-votes message (in particular it
invokes no selection transaction), and leaves the queue and the
current-item state untouched. -/
theorem c4_zero_votes_no_selection (env : Env) (db : Db) (ch mid : Nat)
    (poll : PlatformPoll) (sp : SelectionPollRow) (results : PollResults)
    (h1 : findUnprocessedRatingPoll db mid = none)
    (h2 : findUnprocessedSelectionPoll db mid = some sp)
    (h3 : poll.results = some results)
    (hmax : (tallyAnswers poll.answers results.answer_counts).1 = 0)
    (hsel : ∀ s ∈ db.selection_polls, s.message_id = mid → s.selected_volume_id = none) :
    (process_poll_completion env db ch mid poll).2 = [Effect.noVotesMessage ch] ∧
    (∀ s' ∈ (process_poll_completion env db ch mid poll).1.selection_polls,
      s'.message_id = mid → s'.processed = true ∧ s'.selected_volume_id = none) ∧
    (process_poll_completion env db ch mid poll).1.server_book_queue =
      db.server_book_queue ∧
    (process_poll_completion env db ch mid poll).1.server_current_book =
      db.server_current_book := by
  have hcond : ((tallyAnswers poll.answers results.answer_counts).2.isEmpty ||
      (tallyAnswers poll.answers results.answer_counts).1 == 0) = true := by
    rw [hmax]
    simp
  have hbranch : process_poll_completion env db ch mid poll =
      (markSelectionProcessed db mid, [Effect.noVotesMessage ch]) := by
    unfold process_poll_completion
    rw [h1]
    dsimp only
    rw [h2]
    dsimp only
    rw [h3]
    dsimp only
    rw [if_pos hcond]
  rw [hbranch]
  refine ⟨rfl, ?_, rfl, rfl⟩
  intro s' hs' hm
  unfold markSelectionProcessed at hs'
  dsimp only at hs'
  rcases List.mem_map.1 hs' with ⟨y, hy, rfl⟩
  revert hm
  split
  · rename_i hc
    intro _
    exact ⟨rfl, hsel y hy (by simpa using hc)⟩
  · rename_i hc
    intro hm
    exact absurd (by simp [hm] : (y.message_id == mid) = true) hc

/-- C4 witness: a concrete all-zero tally closes the poll without
selecting. -/
theorem c4_witness :
    (process_poll_completion env0
      ⟨[], [⟨2, 11, 5, ["a", "b"], none, 100, false, none⟩], [], [], [], [], [], [], 0⟩
      11 2 { answers := [100, 200],
             results := some ⟨true, [⟨100, 0⟩, ⟨200, 0⟩]⟩ }).2 =
      [Effect.noVotesMessage 11] :=
  (c4_zero_votes_no_selection env0
    ⟨[], [⟨2, 11, 5, ["a", "b"], none, 100, false, none⟩], [], [], [], [], [], [], 0⟩
    11 2 { answers := [100, 200], results := some ⟨true, [⟨100, 0⟩, ⟨200, 0⟩]⟩ }
    ⟨2, 11, 5, ["a", "b"], none, 100, false, none⟩ ⟨true, [⟨100, 0⟩, ⟨200, 0⟩]⟩
    rfl rfl rfl (by decide) (by decide)).1

theorem mark_rating_processes_mid (db : Db) (m : Nat) :
    ∀ r' ∈ (markRatingProcessed db m).rating_polls,
      r'.message_id = m → r'.processed = true := by
  intro r' hr'
  unfold markRatingProcessed at hr'
  dsimp only at hr'
  rcases List.mem_map.1 hr' with ⟨y, hy, rfl⟩
  split
  · intro _
    rfl
  · rename_i hc
    intro hm
    exact absurd (by simp [hm] : (y.message_id == m) = true) hc

theorem close_clears_mid (db : Db) (m : Nat) :
    ∀ s' ∈ (closeSelectionClearWinner db m).selection_polls,
      s'.message_id = m → s'.selected_volume_id = none := by
  intro s' hs'
  unfold closeSelectionClearWinner at hs'
  dsimp only at hs'
  rcases List.mem_map.1 hs' with ⟨y, hy, rfl⟩
  split
  · intro _
    rfl
  · rename_i hc
    intro hm
    exact absurd (by simp [hm] : (y.message_id == m) = true) hc

/-- C5 counterexample: a transient platform error while fetching the poll
message of an unprocessed rating poll does not leave the processed flag
unset for a later retry; the fallback path marks the poll processed
immediately, refuting "the poll's processed flag is left unset and
resolution is retried on the next trigger". -/
theorem c5_counterexample_fetch_failure_closes_poll :
    (check_poll_for_completion env0 (FetchResult.err "transient http error")
        ⟨[⟨1, 9, 5, 7, 50, false⟩], [], [], [], [], [], [], [], 0⟩ 9 1).1.rating_polls =
      [⟨1, 9, 5, 7, 50, true⟩] := by decide

/-- C5 (amended): when fetching a poll's platform state fails before the
processed flag has been committed, the error is handled by defensively
closing the poll rather than retrying: an unprocessed rating poll is
marked processed (and its answer cache purged), an unprocessed selection
poll is marked processed with its winner cleared to NULL, an already
processed poll is left unchanged, and a message with no matching database
row is skipped with no state change. -/
theorem c5_amended_fetch_failure_defensive_close :
    (∀ (env : Env) (db : Db) (ch mid : Nat) (e : String) (r : RatingPollRow),
      db.rating_polls.find? (fun x => x.message_id == mid) = some r →
      r.processed = false →
      (∀ r' ∈ (check_poll_for_completion env (FetchResult.err e) db ch mid).1.rating_polls,
        r'.message_id = mid → r'.processed = true) ∧
      (check_poll_for_completion env (FetchResult.err e) db ch mid).2 =
        [Effect.purgeAnswerCache mid]) ∧
    (∀ (env : Env) (db : Db) (ch mid : Nat) (e : String) (r : RatingPollRow),
      db.rating_polls.find? (fun x => x.message_id == mid) = some r →
      r.processed = true →
      check_poll_for_completion env (FetchResult.err e) db ch mid =
        (db, [Effect.purgeAnswerCache mid])) ∧
    (∀ (env : Env) (db : Db) (ch mid : Nat) (e : String) (s : SelectionPollRow),
      db.rating_polls.find? (fun x => x.message_id == mid) = none →
      db.selection_polls.find? (fun x => x.message_id == mid) = some s →
      s.processed = false →
      ∀ s' ∈ (check_poll_for_completion env (FetchResult.err e) db ch mid).1.selection_polls,
        s'.message_id = mid → s'.processed = true ∧ s'.selected_volume_id = none) ∧
    (∀ (env : Env) (db : Db) (ch mid : Nat) (e : String),
      db.rating_polls.find? (fun x => x.message_id == mid) = none →
      db.selection_polls.find? (fun x => x.message_id == mid) = none →
      check_poll_for_completion env (FetchResult.err e) db ch mid = (db, [])) := by
  refine ⟨?_, ?_, ?_, ?_⟩
  · intro env db ch mid e r hfr hproc
    have hbranch : check_poll_for_completion env (FetchResult.err e) db ch mid =
        (markRatingProcessed db mid, [Effect.purgeAnswerCache mid]) := by
      unfold check_poll_for_completion handle_missing_poll_message
      rw [hfr]
      dsimp only
      rw [hproc, if_neg Bool.false_ne_true]
    rw [hbranch]
    exact ⟨mark_rating_processes_mid db mid, rfl⟩
  · intro env db ch mid e r hfr hproc
    unfold check_poll_for_completion handle_missing_poll_message
    rw [hfr]
    dsimp only
    rw [hproc, if_pos rfl]
  · intro env db ch mid e s hfr hfs hproc
    have hbranch : check_poll_for_completion env (FetchResult.err e) db ch mid =
        (closeSelectionClearWinner db mid, []) := by
      unfold check_poll_for_completion handle_missing_poll_message
      rw [hfr]
      dsimp only
      rw [hfs]
      dsimp only
      rw [hproc, if_neg Bool.false_ne_true]
    rw [hbranch]
    intro s' hs' hm
    exact ⟨close_processes_mid db mid s' hs' hm, close_clears_mid db mid s' hs' hm⟩
  · intro env db ch mid e hfr hfs
    unfold check_poll_for_completion handle_missing_poll_message
    rw [hfr]
    dsimp only
    rw [hfs]

/-- C5 witness: the rating component of the amended claim at a concrete
unprocessed poll. -/
theorem c5_amended_witness :
    (∀ r' ∈ (check_poll_for_completion env0 (FetchResult.err "timeout")
        ⟨[⟨1, 9, 5, 7, 50, false⟩], [], [], [], [], [], [], [], 0⟩ 9 1).1.rating_polls,
      r'.message_id = 1 → r'.processed = true) ∧
    (check_poll_for_completion env0 (FetchResult.err "timeout")
        ⟨[⟨1, 9, 5, 7, 50, false⟩], [], [], [], [], [], [], [], 0⟩ 9 1).2 =
      [Effect.purgeAnswerCache 1] :=
  c5_amended_fetch_failure_defensive_close.1 env0
    ⟨[⟨1, 9, 5, 7, 50, false⟩], [], [], [], [], [], [], [], 0⟩ 9 1 "timeout"
    ⟨1, 9, 5, 7, 50, false⟩ rfl rfl

/-- C6 counterexample: the short-interval sweeper query reads only
selection_polls, so an expired unprocessed rating poll is never swept: the
sweep leaves the database unchanged and emits nothing, while invoking the
resolution entry point directly on the same poll would mark it
processed. -/
theorem c6_counterexample_rating_poll_not_swept :
    check_expired_polls env0
        (fun _ => FetchResult.ok ⟨some ⟨[100], some ⟨true, []⟩⟩⟩)
        ⟨[⟨1, 9, 5, 7, 50, false⟩], [], [], [], [], [], [], [], 0⟩ 100 =
      (⟨[⟨1, 9, 5, 7, 50, false⟩], [], [], [], [], [], [], [], 0⟩, []) ∧
    (check_poll_for_completion env0
        (FetchResult.ok ⟨some ⟨[100], some ⟨true, []⟩⟩⟩)
        ⟨[⟨1, 9, 5, 7, 50, false⟩], [], [], [], [], [], [], [], 0⟩ 9 1).1.rating_polls =
      [⟨1, 9, 5, 7, 50, true⟩] := by
  constructor
  · decide
  · decide

/-- C6 (amended): the short-interval sweeper invokes the shared resolution
entry point only for selection polls with processed = false and
expires_at <= now; rating polls are never swept and their table is left
unchanged.  Provided every fetch either fails or reports a finalized poll,
after one sweep no expired unprocessed selection poll remains. -/
theorem c6_amended_sweeper_selection_polls_only (env : Env)
    (fetchOf : Nat → FetchResult) (db : Db) (now : Nat)
    (hf : ∀ m, reports_finalized (fetchOf m) = true)
    (hdisj : ∀ r ∈ db.rating_polls, ∀ s ∈ db.selection_polls,
      r.message_id ≠ s.message_id)
    (hn : (db.selection_polls.map (fun s => s.message_id)).Nodup) :
    (check_expired_polls env fetchOf db now).1.rating_polls = db.rating_polls ∧
    ∀ s' ∈ (check_expired_polls env fetchOf db now).1.selection_polls,
      s'.processed = false → ¬(s'.expires_at ≤ now) := by
  have hr : ∀ p ∈ expired_unprocessed_selection_polls db now,
      ∀ r ∈ db.rating_polls, r.message_id ≠ p.message_id := by
    intro p hp r hrr
    exact hdisj r hrr p (List.mem_of_mem_filter hp)
  have haux := sweep_aux env fetchOf hf (expired_unprocessed_selection_polls db now) db hr hn
  rw [check_expired_polls_db]
  refine ⟨haux.1, ?_⟩
  intro s' hs' hsp hle
  rcases forall2_mem_right haux.2.1 hs' with ⟨s, hs, hev⟩
  rcases Bool.eq_false_or_eq_true s.processed with hp | hp
  · have hmono := hev.2.2.2.2.2.2 hp
    rw [hmono] at hsp
    cases hsp
  · have hsfilter : s ∈ expired_unprocessed_selection_polls db now := by
      unfold expired_unprocessed_selection_polls
      refine List.mem_filter.2 ⟨hs, ?_⟩
      have hexp : s.expires_at ≤ now := by
        rw [← hev.2.2.2.2.2.1]
        exact hle
      simp [hp, hexp]
    have hmid : s'.message_id ∈ (expired_unprocessed_selection_polls db now).map
        (fun p => p.message_id) :=
      List.mem_map.2 ⟨s, hsfilter, hev.1.symm⟩
    have := haux.2.2 s' hs' hmid
    rw [this] at hsp
    cases hsp

/-- C6 witness: a sweep over a database whose only expired unprocessed
poll is a selection poll leaves the rating table untouched. -/
theorem c6_amended_witness :
    (check_expired_polls env0 (fun _ => FetchResult.err "gone")
      ⟨[⟨1, 9, 5, 7, 50, true⟩], [⟨2, 11, 5, ["a", "b"], none, 60, false, none⟩],
        [], [], [], [], [], [], 0⟩ 100).1.rating_polls = [⟨1, 9, 5, 7, 50, true⟩] :=
  (c6_amended_sweeper_selection_polls_only env0 (fun _ => FetchResult.err "gone")
    ⟨[⟨1, 9, 5, 7, 50, true⟩], [⟨2, 11, 5, ["a", "b"], none, 60, false, none⟩],
      [], [], [], [], [], [], 0⟩ 100 (fun _ => rfl) (by decide) (by decide)).1

/-- C7: the processed flag of every poll row is monotonic across every
operation of the system: resolution, the missing-message fallback, the
completion check, the expiry sweep, the guard check and its
cancel-and-proceed branch, vote ingestion (add and remove), the deadline
sweep, and poll creation each leave every pre-existing poll row's
processed flag unchanged or flip it from false to true; none resets it
from true to false. -/
theorem c7_processed_flag_monotonic :
    (∀ (env : Env) (db : Db) (ch mid : Nat) (poll : PlatformPoll),
      pollsMonotone db (process_poll_completion env db ch mid poll).1) ∧
    (∀ (db : Db) (ch mid : Nat),
      pollsMonotone db (handle_missing_poll_message db ch mid).1) ∧
    (∀ (env : Env) (f : FetchResult) (db : Db) (ch mid : Nat),
      pollsMonotone db (check_poll_for_completion env f db ch mid).1) ∧
    (∀ (env : Env) (fetchOf : Nat → FetchResult) (db : Db) (now : Nat),
      pollsMonotone db (check_expired_polls env fetchOf db now).1) ∧
    (∀ (db : Db) (server now : Nat),
      pollsMonotone db (active_selection_poll_row db server now).1) ∧
    (∀ (db : Db) (server now : Nat) (c : GuardChoice),
      pollsMonotone db (interactive_poll_guard db server now c).1) ∧
    (∀ (f : FetchResult) (db db' : Db) (mid uid aid : Nat) (es : List Effect),
      process_rating_vote_add f db mid uid aid = Except.ok (db', es) →
      pollsMonotone db db') ∧
    (∀ (db : Db) (mid uid : Nat),
      pollsMonotone db (process_rating_vote_remove db mid uid).1) ∧
    (∀ (env : Env) (db : Db) (now : Nat) (midOf : Nat → Nat),
      pollsMonotone db (process_deadlines env db now midOf).1) ∧
    (∀ (db : Db) (mid ch server : Nat) (ids : List String) (ex : Nat) (dl : Option Nat),
      pollsMonotone db (create_selection_poll db mid ch server ids ex dl)) :=
  ⟨pollsMonotone_process, pollsMonotone_handle_missing, pollsMonotone_check,
   pollsMonotone_sweep, pollsMonotone_active_row, pollsMonotone_guard,
   fun f db db' mid uid aid es h => pollsMonotone_vote_add f db mid uid aid db' es h,
   pollsMonotone_vote_remove, pollsMonotone_deadlines, pollsMonotone_create_selection⟩

/-- C7 witness: the vote-add component at a concrete run that succeeds. -/
theorem c7_witness : pollsMonotone emptyDb emptyDb :=
  c7_processed_flag_monotonic.2.2.2.2.2.2.1 (FetchResult.err "x") emptyDb emptyDb
    1 2 3 [] rfl

theorem cancel_row_facts (server : Nat) (x : SelectionPollRow) :
    (((if x.server_id == server && !x.processed then { x with processed := true }
        else x) : SelectionPollRow).selected_volume_id = x.selected_volume_id) ∧
    (((if x.server_id == server && !x.processed then { x with processed := true }
        else x) : SelectionPollRow).server_id = x.server_id) ∧
    (x.server_id = server →
      ((if x.server_id == server && !x.processed then { x with processed := true }
        else x) : SelectionPollRow).processed = true) := by
  by_cases hc : (x.server_id == server && !x.processed) = true
  · rw [if_pos hc]
    exact ⟨rfl, rfl, fun _ => rfl⟩
  · rw [if_neg hc]
    refine ⟨rfl, rfl, ?_⟩
    intro hsv
    rcases Bool.and_eq_false_iff.1 (Bool.eq_false_iff.2 hc) with h | h
    · exact absurd (by simp [hsv] : (x.server_id == server) = true)
        (Bool.eq_false_iff.1 h)
    · simpa using h

/-- C8: when the guard finds an active selection poll and the invoker
chooses cancel-and-proceed, the outcome lets the new action proceed, every
selection poll of the community ends up processed, the winner field of
every row is never written by the cancellation, and every previously open
poll of the community ends up processed with selected_volume_id still
unset. -/
theorem c8_cancel_and_proceed (db : Db) (server now : Nat) (row : Nat × Nat)
    (hactive : (active_selection_poll_row db server now).2 = some row)
    (hsel : ∀ s ∈ db.selection_polls, s.processed = false →
      s.selected_volume_id = none) :
    (interactive_poll_guard db server now GuardChoice.cancelAndProceed).2 =
      GuardOutcome.cancelledProceed ∧
    (∀ s' ∈ (interactive_poll_guard db server now
        GuardChoice.cancelAndProceed).1.selection_polls,
      s'.server_id = server → s'.processed = true) ∧
    List.Forall₂ (fun s s' =>
        s'.selected_volume_id = s.selected_volume_id ∧
        (s.processed = false ∧ s.server_id = server →
          s'.processed = true ∧ s'.selected_volume_id = none))
      db.selection_polls
      (interactive_poll_guard db server now
        GuardChoice.cancelAndProceed).1.selection_polls := by
  have hbranch : interactive_poll_guard db server now GuardChoice.cancelAndProceed =
      (cancel_open_selection_polls (cleanup_stale_selection_polls db server now) server,
        GuardOutcome.cancelledProceed) := by
    unfold interactive_poll_guard
    dsimp only
    rw [hactive]
    rfl
  refine ⟨by rw [hbranch], ?_, ?_⟩
  · rw [hbranch]
    intro s' hs' hsv
    dsimp only at hs'
    unfold cancel_open_selection_polls cleanup_stale_selection_polls at hs'
    dsimp only at hs'
    rw [List.map_map] at hs'
    rcases List.mem_map.1 hs' with ⟨y, hy, rfl⟩
    dsimp only [Function.comp] at hsv ⊢
    have hc := cancel_row_facts server
      ((if y.server_id == server && !y.processed && decide (y.expires_at ≤ now) then
        { y with processed := true } else y) : SelectionPollRow)
    exact hc.2.2 (by rw [← hc.2.1]; exact hsv)
  · rw [hbranch]
    dsimp only
    unfold cancel_open_selection_polls cleanup_stale_selection_polls
    dsimp only
    rw [List.map_map, List.forall₂_map_right_iff]
    apply List.forall₂_same.2
    intro y hy
    dsimp only [Function.comp]
    have hcl : (((if y.server_id == server && !y.processed && decide (y.expires_at ≤ now) then
        { y with processed := true } else y) : SelectionPollRow).selected_volume_id =
        y.selected_volume_id) ∧
        (((if y.server_id == server && !y.processed && decide (y.expires_at ≤ now) then
        { y with processed := true } else y) : SelectionPollRow).server_id =
        y.server_id) := by
      split
      · exact ⟨rfl, rfl⟩
      · exact ⟨rfl, rfl⟩
    have hc := cancel_row_facts server
      ((if y.server_id == server && !y.processed && decide (y.expires_at ≤ now) then
        { y with processed := true } else y) : SelectionPollRow)
    refine ⟨?_, ?_⟩
    · rw [hc.1, hcl.1]
    · rintro ⟨hp, hsv⟩
      refine ⟨hc.2.2 (by rw [hcl.2]; exact hsv), ?_⟩
      rw [hc.1, hcl.1]
      exact hsel y hy hp

/-- C8 witness: cancelling past a concrete active poll proceeds. -/
theorem c8_witness :
    (interactive_poll_guard
      ⟨[], [⟨2, 11, 5, ["a", "b"], none, 200, false, none⟩], [], [], [], [], [], [], 0⟩
      5 100 GuardChoice.cancelAndProceed).2 = GuardOutcome.cancelledProceed :=
  (c8_cancel_and_proceed
    ⟨[], [⟨2, 11, 5, ["a", "b"], none, 200, false, none⟩], [], [], [], [], [], [], 0⟩
    5 100 (2, 11) (by decide) (by decide)).1

/-- C9: a vote-added event on a known rating poll whose answer token
resolves to a rating in 1..5 upserts the member's rating for
(user, completed item), overwriting any prior value; ratings of every
other (user, item) pair are unchanged, and the at-most-one-row-per-key
property of the rating table is preserved (last vote wins). -/
theorem c9_vote_add_upserts_last_write_wins (fetched : FetchResult) (db : Db)
    (mid uid aid r : Nat) (rp : RatingPollRow)
    (hfindp : db.rating_polls.find? (fun x => x.message_id == mid) = some rp)
    (hres : resolve_rating_choice fetched aid = Except.ok (some r))
    (hrange : 1 ≤ r ∧ r ≤ 5)
    (hkey : atMostOnePerKey db.user_book_ratings) :
    process_rating_vote_add fetched db mid uid aid =
      Except.ok ({ db with user_book_ratings := (upsert_rating
        db.user_book_ratings uid rp.completed_id r) }, []) ∧
    currentRating (upsert_rating db.user_book_ratings uid rp.completed_id r)
      uid rp.completed_id = some r ∧
    (∀ uid2 cid2 : Nat, ¬(uid2 = uid ∧ cid2 = rp.completed_id) →
      currentRating (upsert_rating db.user_book_ratings uid rp.completed_id r)
        uid2 cid2 = currentRating db.user_book_ratings uid2 cid2) ∧
    atMostOnePerKey (upsert_rating db.user_book_ratings uid rp.completed_id r) := by
  refine ⟨?_, currentRating_upsert_same _ _ _ _, ?_, atMostOnePerKey_upsert _ _ _ _ hkey⟩
  · unfold process_rating_vote_add
    rw [hfindp]
    dsimp only
    rw [hres]
  · intro uid2 cid2 hne
    exact currentRating_upsert_other _ _ _ _ _ _ hne

/-- C9 witness: a second vote by the same user overwrites the stored
rating at a concrete table. -/
theorem c9_witness :
    process_rating_vote_add
        (FetchResult.ok ⟨some ⟨[100, 200, 300, 400, 500], none⟩⟩)
        ⟨[⟨1, 9, 5, 7, 50, false⟩], [], [⟨3, 7, 5⟩], [], [], [], [], [], 0⟩ 1 3 200 =
      Except.ok (⟨[⟨1, 9, 5, 7, 50, false⟩], [], [⟨3, 7, 2⟩], [], [], [], [], [], 0⟩, []) ∧
    currentRating [⟨3, 7, 2⟩] 3 7 = some 2 ∧
    atMostOnePerKey [(⟨3, 7, 2⟩ : UserBookRatingRow)] := by
  have h := c9_vote_add_upserts_last_write_wins
    (FetchResult.ok ⟨some ⟨[100, 200, 300, 400, 500], none⟩⟩)
    ⟨[⟨1, 9, 5, 7, 50, false⟩], [], [⟨3, 7, 5⟩], [], [], [], [], [], 0⟩ 1 3 200 2
    ⟨1, 9, 5, 7, 50, false⟩ rfl rfl (by decide)
    (by constructor <;> simp [atMostOnePerKey])
  exact ⟨h.1, h.2.1, h.2.2.2⟩

/-- C10: whenever the catalog lookup fails, the restricted-content gate is
skipped entirely.  At selection-poll resolution a failed lookup of the
winning item proceeds straight to the selection transaction (with
placeholder metadata) and posts no mature-content warning, whatever the
item's restriction flag would have been; at deadline auto-completion a
failed lookup of the just-finished item is treated as permitting, so the
completion message with its rating poll is posted and the rating_polls row
inserted, with no warning and no blocking notice. -/
theorem c10_catalog_failure_skips_gate :
    (∀ (env : Env) (db : Db) (ch mid : Nat) (poll : PlatformPoll)
        (sp : SelectionPollRow) (results : PollResults),
      findUnprocessedRatingPoll db mid = none →
      findUnprocessedSelectionPoll db mid = some sp →
      poll.results = some results →
      (tallyAnswers poll.answers results.answer_counts).2.isEmpty = false →
      ((tallyAnswers poll.answers results.answer_counts).1 == 0) = false →
      ¬(sp.book_options.length ≤
        chooseWinningIndex (tallyAnswers poll.answers results.answer_counts).2) →
      env.catalog (sp.book_options.getD
        (chooseWinningIndex (tallyAnswers poll.answers results.answer_counts).2) "") =
        none →
      Effect.selectTxCall sp.server_id (sp.book_options.getD
          (chooseWinningIndex (tallyAnswers poll.answers results.answer_counts).2) "") ∈
        (process_poll_completion env db ch mid poll).2 ∧
      Effect.matureWarning ch ∉ (process_poll_completion env db ch mid poll).2) ∧
    (∀ (env : Env) (db db1 : Db) (now new_mid ch : Nat) (row : CurrentBookRow)
        (cfg : BotConfigRow) (cid : Nat) (vid : String),
      finish_current_book_tx db row.server_id = (db1, some (cid, vid)) →
      (match cfg.announcement_channel_id with
       | some a => some a
       | none => row.announcement_channel_id) = some ch →
      env.catalog row.volume_id = none →
      (∀ r ∈ db1.rating_polls, r.message_id ≠ new_mid) →
      Effect.deadlineMessageWithPoll ch row.volume_id ∈
        (process_deadline_row env db now new_mid row cfg).2 ∧
      (∃ rp ∈ (process_deadline_row env db now new_mid row cfg).1.rating_polls,
        rp.message_id = new_mid ∧ rp.completed_id = cid ∧ rp.processed = false) ∧
      Effect.matureWarning ch ∉ (process_deadline_row env db now new_mid row cfg).2 ∧
      Effect.matureBlockedNotice ch ∉ (process_deadline_row env db now new_mid row cfg).2) := by
  constructor
  · intro env db ch mid poll sp results h1 h2 h3 h4 h5 hbound hcat
    have hcond : ((tallyAnswers poll.answers results.answer_counts).2.isEmpty ||
        (tallyAnswers poll.answers results.answer_counts).1 == 0) = false := by
      rw [h4, h5]
      rfl
    have hbranch : process_poll_completion env db ch mid poll =
        applySelection db mid ch sp
          (sp.book_options.getD
            (chooseWinningIndex (tallyAnswers poll.answers results.answer_counts).2) "")
          (if 1 < (tallyAnswers poll.answers results.answer_counts).2.length then
            [Effect.tieMessage ch (tallyAnswers poll.answers results.answer_counts).1]
          else []) := by
      unfold process_poll_completion
      rw [h1]
      dsimp only
      rw [h2]
      dsimp only
      rw [h3]
      dsimp only
      rw [hcond]
      simp only [Bool.false_eq_true, if_false]
      rw [if_neg hbound, hcat]
    rw [hbranch]
    unfold applySelection
    dsimp only
    constructor
    · split <;> simp
    · split
      · split <;> simp
      · split <;> simp
  · intro env db db1 now new_mid ch row cfg cid vid hfin htgt hcat hnoc
    have hins : insert_rating_poll db1
        { message_id := new_mid, channel_id := ch, server_id := row.server_id,
          completed_id := cid, expires_at := now + rating_poll_duration,
          processed := false } =
        { db1 with rating_polls := (db1.rating_polls ++
          [{ message_id := new_mid, channel_id := ch, server_id := row.server_id,
             completed_id := cid, expires_at := now + rating_poll_duration,
             processed := false }]) } := by
      unfold insert_rating_poll
      rw [if_neg]
      intro hany
      rcases List.any_eq_true.1 hany with ⟨x, hx, hpx⟩
      exact hnoc x hx (by simpa using hpx)
    have hbranch : process_deadline_row env db now new_mid row cfg =
        ({ db1 with rating_polls := (db1.rating_polls ++
            [{ message_id := new_mid, channel_id := ch, server_id := row.server_id,
               completed_id := cid, expires_at := now + rating_poll_duration,
               processed := false }]) },
          Effect.finishTxCall row.server_id ::
            Effect.deadlineMessageWithPoll ch row.volume_id ::
            (if pin_polls_enabled db1 row.server_id then [Effect.pinMessage] else [])) := by
      unfold process_deadline_row
      dsimp only
      rw [hfin]
      dsimp only
      rw [htgt]
      dsimp only
      rw [hcat]
      dsimp only
      rw [hins]
      exact if_pos rfl
    rw [hbranch]
    refine ⟨by simp, ?_, ?_, ?_⟩
    · refine ⟨⟨new_mid, ch, row.server_id, cid, now + rating_poll_duration, false⟩,
        ?_, rfl, rfl, rfl⟩
      simp
    · split <;> simp
    · split <;> simp

/-- C10 witness: both components at concrete inputs with a failing
catalog. -/
theorem c10_witness :
    Effect.selectTxCall 5 "x" ∈
      (process_poll_completion env0
        ⟨[], [⟨2, 11, 5, ["x"], none, 100, false, none⟩], [], [],
          [⟨5, "x", 1, 42⟩], [], [], [], 0⟩
        11 2 { answers := [100], results := some ⟨true, [⟨100, 1⟩]⟩ }).2 ∧
    Effect.deadlineMessageWithPoll 13 "y" ∈
      (process_deadline_row env0
        ⟨[], [], [], [], [], [⟨6, "y", some 10, some 13⟩], [], [], 33⟩
        20 77 ⟨6, "y", some 10, some 13⟩ ⟨6, none, true, true⟩).2 := by
  constructor
  · exact ((c10_catalog_failure_skips_gate.1 env0
      ⟨[], [⟨2, 11, 5, ["x"], none, 100, false, none⟩], [], [],
        [⟨5, "x", 1, 42⟩], [], [], [], 0⟩
      11 2 { answers := [100], results := some ⟨true, [⟨100, 1⟩]⟩ }
      ⟨2, 11, 5, ["x"], none, 100, false, none⟩ ⟨true, [⟨100, 1⟩]⟩
      rfl rfl rfl (by decide) (by decide) (by decide) rfl).1)
  · exact ((c10_catalog_failure_skips_gate.2 env0
      ⟨[], [], [], [], [], [⟨6, "y", some 10, some 13⟩], [], [], 33⟩
      ⟨[], [], [], [⟨33, 6, "y", none, some 0⟩], [], [], [], [], 34⟩
      20 77 13 ⟨6, "y", some 10, some 13⟩ ⟨6, none, true, true⟩ 33 "y"
      (by decide) rfl rfl (by decide)).1)
